import Mathlib

/-!
# OpenCL-Test: `hello.cpp`

A shallow embedding of `src/hello/hello.cpp`: the host procedure `main`, the
device kernel `hello` held in `KernelSource`, and the environment they run
against (binary32 arithmetic, the `%f` conversion of `printf`, and an OpenCL
runtime).

* `main` is embedded over an arbitrary backend: a transition function that
  answers every OpenCL call.  Theorems quantified over the backend hold for
  every runtime, well behaved or not.
* `clBackend` is a reference runtime written from the OpenCL 1.2 API
  description; it is the backend that "executes the kernel and the transfers
  faithfully".
-/

namespace OpenCLTest

/-! ## binary32 values -/

/-- A binary32 value.  `fin neg m e` is the real number `(-1)^neg * m * 2^e`,
kept in canonical form: `m` is odd, or `m = 0` and `e = 0`. -/
inductive F32 where
  | fin (neg : Bool) (m : Nat) (e : Int)
  | inf (neg : Bool)
  | nan
deriving DecidableEq

/-- Divide out factors of two (at most `fuel` of them), counting them in the exponent. -/
def stripZeros : Nat → Nat → Int → Nat × Int
  | 0, m, e => (m, e)
  | fuel + 1, m, e =>
    if m % 2 = 0 ∧ m ≠ 0 then stripZeros fuel (m / 2) (e + 1) else (m, e)

/-- Number of binary digits of `m`, by repeated halving with `fuel` steps. -/
def bitLenAux : Nat → Nat → Nat
  | 0, _ => 0
  | fuel + 1, m => if m = 0 then 0 else bitLenAux fuel (m / 2) + 1

/-- Number of binary digits of `m` (`0` for `0`). -/
def bitLen (m : Nat) : Nat := bitLenAux m m

/-- Canonical form of `(-1)^neg * m * 2^e`. -/
def canon (neg : Bool) (m : Nat) (e : Int) : F32 :=
  if m = 0 then F32.fin neg 0 0
  else F32.fin neg (stripZeros m m e).1 (stripZeros m m e).2

/-- A rounded magnitude `m * 2^e` becomes an infinity when it reaches `2^128`. -/
def pack (neg : Bool) (m : Nat) (e : Int) : F32 :=
  if (bitLen m : Int) + e > 128 then F32.inf neg else canon neg m e

/-- Round the exact value `(-1)^neg * M * 2^E` to binary32: 24 significant bits,
least exponent `-149` (subnormals), ties to even, overflow to infinity. -/
def roundF32 (neg : Bool) (M : Nat) (E : Int) : F32 :=
  if M = 0 then F32.fin neg 0 0
  else
    let q : Int := max (E + (bitLen M : Int) - 24) (-149)
    if q ≤ E then pack neg M E
    else
      let k := (q - E).toNat
      let hi := M / 2 ^ k
      let lo := M % 2 ^ k
      let half := 2 ^ (k - 1)
      pack neg (if half < lo ∨ (lo = half ∧ hi % 2 = 1) then hi + 1 else hi) q

/-- The binary32 product `a * b` of OpenCL C and of C (IEEE 754, correctly rounded). -/
def fmul : F32 → F32 → F32
  | F32.nan, _ => F32.nan
  | _, F32.nan => F32.nan
  | F32.inf a, F32.inf b => F32.inf (xor a b)
  | F32.inf a, F32.fin b m _ => if m = 0 then F32.nan else F32.inf (xor a b)
  | F32.fin a m _, F32.inf b => if m = 0 then F32.nan else F32.inf (xor a b)
  | F32.fin a m e, F32.fin b n f => roundF32 (xor a b) (m * n) (e + f)

/-- Conversion of an integer constant to `float`, as in the initialisers
`{1, 2, ...}` and `{0}`. -/
def ofInt (k : Int) : F32 := roundF32 (decide (k < 0)) k.natAbs 0

/-! ## The `%f` conversion of `printf` -/

/-- The decimal digit character of `d % 10`. -/
def digitChar (d : Nat) : Char := Char.ofNat (48 + d % 10)

/-- The last `k` decimal digits of `n`, zero padded. -/
def lastDigits : Nat → Nat → List Char
  | 0, _ => []
  | k + 1, n => lastDigits k (n / 10) ++ [digitChar n]

/-- Decimal digits of `n` without leading zeros (`fuel` bounds the digit count). -/
def natDigitsAux : Nat → Nat → List Char
  | 0, _ => []
  | fuel + 1, n =>
    if n < 10 then [digitChar n] else natDigitsAux fuel (n / 10) ++ [digitChar n]

/-- Decimal digits of `n`. -/
def natDigits (n : Nat) : List Char := natDigitsAux (n + 1) n

/-- What `printf("%f", x)` writes for a `float` argument `x`: the value (promoted
to `double` without change) in decimal with six fractional digits, the exact
value rounded to nearest, ties to even. -/
def fmtF : F32 → String
  | F32.nan => "nan"
  | F32.inf neg => (if neg then "-" else "") ++ "inf"
  | F32.fin neg m e =>
    let num := m * 10 ^ 6 * 2 ^ e.toNat
    let den := 2 ^ (-e).toNat
    let q := num / den
    let r := num % den
    let u := if den < 2 * r ∨ (2 * r = den ∧ q % 2 = 1) then q + 1 else q
    (if neg then "-" else "") ++
      String.mk (natDigits (u / 10 ^ 6) ++ ['.'] ++ lastDigits 6 (u % 10 ^ 6))

/-! ## Constants of `CL/cl.h` and of the C implementation -/

/-- An OpenCL object handle (`cl_platform_id`, `cl_mem`, ...); `0` is `NULL`. -/
abbrev Handle := Nat

def CL_SUCCESS : Int := 0
def CL_DEVICE_NOT_FOUND : Int := -1
def CL_OUT_OF_RESOURCES : Int := -5
def CL_OUT_OF_HOST_MEMORY : Int := -6
def CL_BUILD_PROGRAM_FAILURE : Int := -11
def CL_INVALID_VALUE : Int := -30
def CL_INVALID_PLATFORM : Int := -32
def CL_INVALID_DEVICE : Int := -33
def CL_INVALID_CONTEXT : Int := -34
def CL_INVALID_COMMAND_QUEUE : Int := -36
def CL_INVALID_MEM_OBJECT : Int := -38
def CL_INVALID_PROGRAM : Int := -44
def CL_INVALID_PROGRAM_EXECUTABLE : Int := -45
def CL_INVALID_KERNEL_NAME : Int := -46
def CL_INVALID_KERNEL : Int := -48
def CL_INVALID_ARG_INDEX : Int := -49
def CL_INVALID_ARG_SIZE : Int := -51
def CL_INVALID_KERNEL_ARGS : Int := -52
def CL_INVALID_WORK_DIMENSION : Int := -53
def CL_INVALID_BUFFER_SIZE : Int := -61
def CL_INVALID_PROPERTY : Int := -64
def CL_INVALID_GLOBAL_WORK_SIZE : Int := -63
def CL_PLATFORM_NOT_FOUND_KHR : Int := -1001

def CL_TRUE : Nat := 1
def CL_DEVICE_TYPE_CPU : Nat := 2
def CL_DEVICE_TYPE_GPU : Nat := 4
def CL_MEM_WRITE_ONLY : Nat := 2
def CL_MEM_READ_ONLY : Nat := 4
def CL_CONTEXT_PLATFORM : Nat := 4228

/-- The value of `sizeof(float)`. -/
def sizeof_float : Nat := 4

/-- The value of `sizeof(cl_mem)`, a pointer. -/
def sizeof_cl_mem : Nat := 8

/-! ## The program's constants -/

/-- The element count, `#define DATA_SIZE 10`. -/
def DATA_SIZE : Nat := 10

/-- The OpenCL C text handed to `clCreateProgramWithSource`. -/
def KernelSource : String :=
  "__kernel void hello(__global float *input, __global float *output)\n" ++
  "\x7b\n" ++
  " size_t id = get_global_id(0);\n" ++
  " output[id] = input[id] * input[id];\n" ++
  "\x7d\n" ++
  "\n"

/-- The host input, `float inputData[DATA_SIZE] = {1, 2, 3, 4, 5, 6, 7, 8, 9, 10};`. -/
def inputData : List F32 :=
  [ofInt 1, ofInt 2, ofInt 3, ofInt 4, ofInt 5, ofInt 6, ofInt 7, ofInt 8, ofInt 9, ofInt 10]

/-! ## Calls into the OpenCL runtime -/

/-- One call of `main` into the runtime, with the arguments it passes.  Pointer
arguments that `main` passes as `NULL` or `0` in every call (callbacks, event
lists, work offsets, local sizes, build options) are left out; `errcode_ret`
records whether a result pointer (`&err`) rather than `NULL` is passed.  A
`platform` or `device` of `none` is an indeterminate (never assigned) value. -/
inductive Call where
  | clGetPlatformIDs (num_entries : Nat)
  | clGetDeviceIDs (platform : Option Handle) (device_type : Nat) (num_entries : Nat)
  | clCreateContext (properties : List (Option Nat)) (num_devices : Nat)
      (devices : List (Option Handle)) (errcode_ret : Bool)
  | clCreateCommandQueue (context : Handle) (device : Option Handle) (properties : Nat)
      (errcode_ret : Bool)
  | clCreateProgramWithSource (context : Handle) (count : Nat) (strings : List String)
      (errcode_ret : Bool)
  | clBuildProgram (program : Handle) (num_devices : Nat)
  | clCreateKernel (program : Handle) (kernel_name : String) (errcode_ret : Bool)
  | clCreateBuffer (context : Handle) (flags : Nat) (size : Nat) (errcode_ret : Bool)
  | clEnqueueWriteBuffer (command_queue : Handle) (buffer : Handle) (blocking_write : Nat)
      (offset : Nat) (size : Nat) (ptr : List F32)
  | clSetKernelArg (kernel : Handle) (arg_index : Nat) (arg_size : Nat) (arg_value : Handle)
  | clEnqueueNDRangeKernel (command_queue : Handle) (kernel : Handle) (work_dim : Nat)
      (global_work_size : List Nat)
  | clFinish (command_queue : Handle)
  | clEnqueueReadBuffer (command_queue : Handle) (buffer : Handle) (blocking_read : Nat)
      (offset : Nat) (size : Nat)
  | clReleaseMemObject (memobj : Handle)
  | clReleaseProgram (program : Handle)
  | clReleaseKernel (kernel : Handle)
  | clReleaseCommandQueue (command_queue : Handle)
  | clReleaseContext (context : Handle)
deriving DecidableEq

/-- What a call hands back: its status (the return value, or the value stored
through `errcode_ret`), the object handle it returns, the ids and the count it
stores through the output pointers of a query, and the floats it stores through
the host pointer of a read. -/
structure Resp where
  status : Int
  handle : Handle
  ids : List Handle
  num : Option Nat
  host : Option (List F32)
deriving DecidableEq

/-- A call that failed with `code`: nothing returned, nothing stored. -/
def Resp.err (code : Int) : Resp :=
  { status := code, handle := 0, ids := [], num := none, host := none }

/-- A successful call without results. -/
def Resp.ok : Resp := Resp.err CL_SUCCESS

/-- A successful creation returning the handle `h`. -/
def Resp.created (h : Handle) : Resp := { Resp.ok with handle := h }

/-- A call together with the runtime's answer. -/
structure Event where
  call : Call
  resp : Resp
deriving DecidableEq

/-- A runtime: it answers each call and moves to its next state. -/
abbrev Backend (σ : Type) := σ → Call → Resp × σ

/-- What a run of `main` leaves behind. -/
structure Outcome where
  ret : Int
  stdout : String
  results : List F32
  trace : List Event
deriving DecidableEq

/-- Host memory after the runtime stored `d` at the start of the array `arr`. -/
def hostStore (arr : List F32) : Option (List F32) → List F32
  | none => arr
  | some d => (d ++ arr.drop d.length).take arr.length

/-- The loop `for (i = 0; i < DATA_SIZE; i++) printf("%f ", results[i]);`. -/
def printLoop (dataSize : Nat) (results : List F32) (out : String) : String :=
  (List.range dataSize).foldl (fun o i => o ++ fmtF (results.getD i (ofInt 0)) ++ " ") out

/-! ## The host procedure -/

/-- The body of `main`, with the element count `DATA_SIZE` and the initial
contents of `inputData` as parameters; `B` answers the OpenCL calls, starting
in state `s0`.  The status of a call is looked at in the three places where the
source compares it with `CL_SUCCESS`, and nowhere else: `err`, `num_of_platforms`
and `num_of_devices` are written by the runtime and never read, so they do not
appear.  `platform_id` and `device_id` are what the queries stored, `none` when
they stored nothing. -/
def mainWith {σ : Type} (dataSize : Nat) (inputData : List F32) (B : Backend σ) (s0 : σ) :
    Outcome :=
  -- float results[DATA_SIZE] = {0};
  let results := List.replicate dataSize (ofInt 0)
  -- clGetPlatformIDs(1, &platform_id, &num_of_platforms)
  let c1 := Call.clGetPlatformIDs 1
  let r1 := (B s0 c1).1
  let s1 := (B s0 c1).2
  let platform_id := r1.ids.head?
  if r1.status ≠ CL_SUCCESS then
    { ret := 1, stdout := "Unable to get platform_id\n", results := results,
      trace := [⟨c1, r1⟩] }
  else
  -- clGetDeviceIDs(platform_id, CL_DEVICE_TYPE_GPU, 1, &device_id, &num_of_devices)
  let c2 := Call.clGetDeviceIDs platform_id CL_DEVICE_TYPE_GPU 1
  let r2 := (B s1 c2).1
  let s2 := (B s1 c2).2
  let device_id := r2.ids.head?
  if r2.status ≠ CL_SUCCESS then
    { ret := 1, stdout := "Unable to get device_id\n", results := results,
      trace := [⟨c1, r1⟩, ⟨c2, r2⟩] }
  else
  -- properties = { CL_CONTEXT_PLATFORM, (cl_context_properties)platform_id, 0 }
  let properties := [some CL_CONTEXT_PLATFORM, platform_id, some 0]
  -- context = clCreateContext(properties, 1, &device_id, NULL, NULL, &err)
  let c3 := Call.clCreateContext properties 1 [device_id] true
  let r3 := (B s2 c3).1
  let s3 := (B s2 c3).2
  let context := r3.handle
  -- command_queue = clCreateCommandQueue(context, device_id, 0, &err)
  let c4 := Call.clCreateCommandQueue context device_id 0 true
  let r4 := (B s3 c4).1
  let s4 := (B s3 c4).2
  let command_queue := r4.handle
  -- program = clCreateProgramWithSource(context, 1, &KernelSource, NULL, &err)
  let c5 := Call.clCreateProgramWithSource context 1 [KernelSource] true
  let r5 := (B s4 c5).1
  let s5 := (B s4 c5).2
  let program := r5.handle
  -- clBuildProgram(program, 0, NULL, NULL, NULL, NULL)
  let c6 := Call.clBuildProgram program 0
  let r6 := (B s5 c6).1
  let s6 := (B s5 c6).2
  if r6.status ≠ CL_SUCCESS then
    { ret := 1, stdout := "Error building program\n", results := results,
      trace := [⟨c1, r1⟩, ⟨c2, r2⟩, ⟨c3, r3⟩, ⟨c4, r4⟩, ⟨c5, r5⟩, ⟨c6, r6⟩] }
  else
  -- kernel = clCreateKernel(program, "hello", &err)
  let c7 := Call.clCreateKernel program "hello" true
  let r7 := (B s6 c7).1
  let s7 := (B s6 c7).2
  let kernel := r7.handle
  -- input = clCreateBuffer(context, CL_MEM_READ_ONLY, sizeof(float) * DATA_SIZE, NULL, NULL)
  let c8 := Call.clCreateBuffer context CL_MEM_READ_ONLY (sizeof_float * dataSize) false
  let r8 := (B s7 c8).1
  let s8 := (B s7 c8).2
  let input := r8.handle
  -- output = clCreateBuffer(context, CL_MEM_WRITE_ONLY, sizeof(float) * DATA_SIZE, NULL, NULL)
  let c9 := Call.clCreateBuffer context CL_MEM_WRITE_ONLY (sizeof_float * dataSize) false
  let r9 := (B s8 c9).1
  let s9 := (B s8 c9).2
  let output := r9.handle
  -- clEnqueueWriteBuffer(command_queue, input, CL_TRUE, 0, sizeof(float) * DATA_SIZE, inputData, ...)
  let c10 := Call.clEnqueueWriteBuffer command_queue input CL_TRUE 0 (sizeof_float * dataSize)
    inputData
  let r10 := (B s9 c10).1
  let s10 := (B s9 c10).2
  -- clSetKernelArg(kernel, 0, sizeof(cl_mem), &input)
  let c11 := Call.clSetKernelArg kernel 0 sizeof_cl_mem input
  let r11 := (B s10 c11).1
  let s11 := (B s10 c11).2
  -- clSetKernelArg(kernel, 1, sizeof(cl_mem), &output)
  let c12 := Call.clSetKernelArg kernel 1 sizeof_cl_mem output
  let r12 := (B s11 c12).1
  let s12 := (B s11 c12).2
  -- global = DATA_SIZE
  let global := dataSize
  -- clEnqueueNDRangeKernel(command_queue, kernel, 1, NULL, &global, NULL, 0, NULL, NULL)
  let c13 := Call.clEnqueueNDRangeKernel command_queue kernel 1 [global]
  let r13 := (B s12 c13).1
  let s13 := (B s12 c13).2
  -- clFinish(command_queue)
  let c14 := Call.clFinish command_queue
  let r14 := (B s13 c14).1
  let s14 := (B s13 c14).2
  -- clEnqueueReadBuffer(command_queue, output, CL_TRUE, 0, sizeof(float) * DATA_SIZE, results, ...)
  let c15 := Call.clEnqueueReadBuffer command_queue output CL_TRUE 0 (sizeof_float * dataSize)
  let r15 := (B s14 c15).1
  let s15 := (B s14 c15).2
  let results := hostStore results r15.host
  -- printf("output: "); the loop; printf("\n")
  let out := printLoop dataSize results "output: " ++ "\n"
  -- cleanup
  let c16 := Call.clReleaseMemObject input
  let r16 := (B s15 c16).1
  let s16 := (B s15 c16).2
  let c17 := Call.clReleaseMemObject output
  let r17 := (B s16 c17).1
  let s17 := (B s16 c17).2
  let c18 := Call.clReleaseProgram program
  let r18 := (B s17 c18).1
  let s18 := (B s17 c18).2
  let c19 := Call.clReleaseKernel kernel
  let r19 := (B s18 c19).1
  let s19 := (B s18 c19).2
  let c20 := Call.clReleaseCommandQueue command_queue
  let r20 := (B s19 c20).1
  let s20 := (B s19 c20).2
  let c21 := Call.clReleaseContext context
  let r21 := (B s20 c21).1
  { ret := 0, stdout := out, results := results,
    trace := [⟨c1, r1⟩, ⟨c2, r2⟩, ⟨c3, r3⟩, ⟨c4, r4⟩, ⟨c5, r5⟩, ⟨c6, r6⟩, ⟨c7, r7⟩,
      ⟨c8, r8⟩, ⟨c9, r9⟩, ⟨c10, r10⟩, ⟨c11, r11⟩, ⟨c12, r12⟩, ⟨c13, r13⟩, ⟨c14, r14⟩,
      ⟨c15, r15⟩, ⟨c16, r16⟩, ⟨c17, r17⟩, ⟨c18, r18⟩, ⟨c19, r19⟩, ⟨c20, r20⟩, ⟨c21, r21⟩] }

/-- The procedure `int main(void)` of `hello.cpp`. -/
def main {σ : Type} (B : Backend σ) (s0 : σ) : Outcome :=
  mainWith DATA_SIZE inputData B s0

/-! ## The device side: global memory and the kernel -/

/-- A buffer object: its handle, owning context, creation flags, whether the
host has released it, and its contents as `float` elements. -/
structure MemObj where
  id : Handle
  context : Handle
  flags : Nat
  released : Bool
  data : List F32

/-- Device global memory: the buffer objects that exist. -/
abbrev DevMem := List MemObj

/-- The bit `bit` (a power of two) is set in `flags`. -/
def hasFlag (flags bit : Nat) : Bool := decide (flags / bit % 2 = 1)

/-- The buffer a `__global` pointer argument refers to. -/
def findMem (mem : DevMem) (p : Handle) : Option MemObj :=
  mem.find? (fun b => b.id == p)

/-- A work-item reads `p[i]`.  `none` where OpenCL C leaves the access undefined:
no such buffer (`NULL`), index outside it, or a buffer created write-only. -/
def load (mem : DevMem) (p : Handle) (i : Nat) : Option F32 :=
  match findMem mem p with
  | none => none
  | some b => if hasFlag b.flags CL_MEM_WRITE_ONLY then none else b.data[i]?

/-- A work-item writes `p[i] = v`.  `none` where the access is undefined: no such
buffer, index outside it, or a buffer created read-only. -/
def store (mem : DevMem) (p : Handle) (i : Nat) (v : F32) : Option DevMem :=
  match findMem mem p with
  | none => none
  | some b =>
    if hasFlag b.flags CL_MEM_READ_ONLY ∨ b.data.length ≤ i then none
    else some (mem.map (fun c => if c.id == p then { c with data := c.data.set i v } else c))

/-- The kernel of `KernelSource`, as run by one work-item:
`size_t id = get_global_id(0); output[id] = input[id] * input[id];`. -/
def hello (input output : Handle) (get_global_id : Nat → Nat) (mem : DevMem) : Option DevMem :=
  let id := get_global_id 0
  (load mem input id).bind fun a =>
  (load mem input id).bind fun b =>
  store mem output id (fmul a b)

/-- A compiled kernel body: argument values, the work-item's `get_global_id`,
memory before, memory after. -/
abbrev KernelFn := List Handle → (Nat → Nat) → DevMem → Option DevMem

/-- A kernel of a built program. -/
structure KernelInfo where
  name : String
  arity : Nat
  body : KernelFn

/-- The compiled form of the only kernel in `KernelSource`: `hello`, with two
pointer parameters. -/
def helloInfo : KernelInfo :=
  { name := "hello", arity := 2,
    body := fun args gid mem =>
      match args with
      | [input, output] => hello input output gid mem
      | _ => none }

/-- The OpenCL C compiler, on the one program text whose meaning is embedded
here; any other text is reported as a build failure. -/
def compileCL (source : String) : Option (List KernelInfo) :=
  if source = KernelSource then some [helloInfo] else none

/-- Run the work-items with the given global ids, one after the other. -/
def runItems (f : (Nat → Nat) → DevMem → Option DevMem) : List Nat → DevMem → Option DevMem
  | [], mem => some mem
  | id :: ids, mem =>
    match f (fun d => if d = 0 then id else 0) mem with
    | none => none
    | some mem1 => runItems f ids mem1

/-! ## A reference OpenCL runtime

Written from the OpenCL 1.2 API description.  It checks the arguments of every
call the way the API prescribes, hands out fresh handles, keeps buffers as
`float` elements, and runs enqueued kernels when the queue is drained.  Two
restrictions: transfers are in whole `float`s, and index spaces have one
dimension. -/

/-- A program object. -/
structure ProgramObj where
  id : Handle
  context : Handle
  source : String
  built : Bool

/-- A kernel object with the argument slots bound so far. -/
structure KernelObj where
  id : Handle
  info : KernelInfo
  args : List (Nat × Handle)

/-- An enqueued kernel execution, with the argument values taken at enqueue time. -/
structure Command where
  queue : Handle
  body : KernelFn
  args : List Handle
  global : Nat

/-- The state of the runtime.  `icd` tells whether the library is the ICD loader
(which reports an empty platform list as an error); `devices` lists
`(platform, device, type)`; `junk` is what freshly allocated device memory
happens to hold; `next` is the next unused handle. -/
structure CLState where
  icd : Bool
  platforms : List Handle
  devices : List (Handle × Handle × Nat)
  junk : Handle → Nat → F32
  next : Handle
  contexts : List (Handle × List Handle)
  queues : List (Handle × Handle)
  programs : List ProgramObj
  kernels : List KernelObj
  mems : DevMem
  pending : List Command

/-- Run one enqueued command over its index space `0 .. global - 1`. -/
def execCommand (mem : DevMem) (c : Command) : Option DevMem :=
  runItems (c.body c.args) (List.range c.global) mem

/-- Run the pending commands of queue `q` in order.  A command whose kernel
faults leaves memory as it was and makes the drain report an error. -/
def drain (q : Handle) (s : CLState) : Int × CLState :=
  let res := (s.pending.filter (fun c => c.queue == q)).foldl
    (fun (acc : Int × DevMem) c =>
      match execCommand acc.2 c with
      | some m => (acc.1, m)
      | none => (CL_OUT_OF_RESOURCES, acc.2))
    (CL_SUCCESS, s.mems)
  (res.1, { s with mems := res.2, pending := s.pending.filter (fun c => c.queue != q) })

/-- The buffer object behind a handle the host may still use. -/
def liveMem (s : CLState) (h : Handle) : Option MemObj :=
  s.mems.find? (fun b => b.id == h && !b.released)

/-- The devices of platform `p` whose type matches the mask `t`. -/
def devicesOf (s : CLState) (p : Handle) (t : Nat) : List Handle :=
  (s.devices.filter (fun d => d.1 == p && Nat.land d.2.2 t != 0)).map (fun d => d.2.1)

/-- The argument values of a kernel in slot order, when every slot is bound. -/
def boundArgs (k : KernelObj) : Option (List Handle) :=
  if (List.range k.info.arity).all (fun i => (k.args.find? (fun a => a.1 == i)).isSome) then
    some ((List.range k.info.arity).filterMap
      (fun i => (k.args.find? (fun a => a.1 == i)).map (fun a => a.2)))
  else none

/-- The call `clGetPlatformIDs` -/
def doGetPlatformIDs (s : CLState) (num_entries : Nat) : Resp × CLState :=
  if num_entries = 0 then (Resp.err CL_INVALID_VALUE, s)
  else if s.platforms = [] then
    if s.icd then (Resp.err CL_PLATFORM_NOT_FOUND_KHR, s)
    else ({ Resp.ok with num := some 0 }, s)
  else ({ Resp.ok with ids := s.platforms.take num_entries, num := some s.platforms.length }, s)

/-- The call `clGetDeviceIDs` -/
def doGetDeviceIDs (s : CLState) (platform : Option Handle) (device_type num_entries : Nat) :
    Resp × CLState :=
  match platform with
  | none => (Resp.err CL_INVALID_PLATFORM, s)
  | some p =>
    if p ∉ s.platforms then (Resp.err CL_INVALID_PLATFORM, s)
    else if num_entries = 0 then (Resp.err CL_INVALID_VALUE, s)
    else if devicesOf s p device_type = [] then (Resp.err CL_DEVICE_NOT_FOUND, s)
    else ({ Resp.ok with ids := (devicesOf s p device_type).take num_entries,
                         num := some (devicesOf s p device_type).length }, s)

/-- The call `clCreateContext` -/
def doCreateContext (s : CLState) (properties : List (Option Nat)) (num_devices : Nat)
    (devices : List (Option Handle)) : Resp × CLState :=
  match properties with
  | [some name, platform, some 0] =>
    if name ≠ CL_CONTEXT_PLATFORM then (Resp.err CL_INVALID_PROPERTY, s)
    else
      match platform with
      | none => (Resp.err CL_INVALID_PLATFORM, s)
      | some p =>
        if p ∉ s.platforms then (Resp.err CL_INVALID_PLATFORM, s)
        else if num_devices = 0 ∨ devices.length ≠ num_devices then (Resp.err CL_INVALID_VALUE, s)
        else if devices.all (fun d => decide (∃ x ∈ s.devices, x.1 = p ∧ some x.2.1 = d)) then
          (Resp.created s.next,
           { s with next := s.next + 1,
                    contexts := (s.next, devices.filterMap id) :: s.contexts })
        else (Resp.err CL_INVALID_DEVICE, s)
  | _ => (Resp.err CL_INVALID_PROPERTY, s)

/-- The call `clCreateCommandQueue` -/
def doCreateCommandQueue (s : CLState) (context : Handle) (device : Option Handle)
    (properties : Nat) : Resp × CLState :=
  match s.contexts.find? (fun c => c.1 == context) with
  | none => (Resp.err CL_INVALID_CONTEXT, s)
  | some c =>
    match device with
    | none => (Resp.err CL_INVALID_DEVICE, s)
    | some d =>
      if d ∉ c.2 then (Resp.err CL_INVALID_DEVICE, s)
      else if 4 ≤ properties then (Resp.err CL_INVALID_VALUE, s)
      else (Resp.created s.next,
            { s with next := s.next + 1, queues := (s.next, context) :: s.queues })

/-- The call `clCreateProgramWithSource` -/
def doCreateProgramWithSource (s : CLState) (context : Handle) (count : Nat)
    (strings : List String) : Resp × CLState :=
  if (s.contexts.find? (fun c => c.1 == context)).isNone then (Resp.err CL_INVALID_CONTEXT, s)
  else if count = 0 ∨ strings.length ≠ count then (Resp.err CL_INVALID_VALUE, s)
  else (Resp.created s.next,
        { s with next := s.next + 1,
                 programs := { id := s.next, context := context, source := String.join strings,
                               built := false } :: s.programs })

/-- The call `clBuildProgram` with a `NULL` device list -/
def doBuildProgram (s : CLState) (program : Handle) (num_devices : Nat) : Resp × CLState :=
  match s.programs.find? (fun p => p.id == program) with
  | none => (Resp.err CL_INVALID_PROGRAM, s)
  | some p =>
    if num_devices ≠ 0 then (Resp.err CL_INVALID_VALUE, s)
    else if (compileCL p.source).isNone then (Resp.err CL_BUILD_PROGRAM_FAILURE, s)
    else (Resp.ok,
          { s with
              programs := s.programs.map
                (fun x => if x.id == program then { x with built := true } else x) })

/-- The call `clCreateKernel` -/
def doCreateKernel (s : CLState) (program : Handle) (kernel_name : String) : Resp × CLState :=
  match s.programs.find? (fun p => p.id == program) with
  | none => (Resp.err CL_INVALID_PROGRAM, s)
  | some p =>
    if !p.built then (Resp.err CL_INVALID_PROGRAM_EXECUTABLE, s)
    else
      match ((compileCL p.source).getD []).find? (fun k => k.name == kernel_name) with
      | none => (Resp.err CL_INVALID_KERNEL_NAME, s)
      | some info =>
        (Resp.created s.next,
         { s with next := s.next + 1,
                  kernels := { id := s.next, info := info, args := [] } :: s.kernels })

/-- The call `clCreateBuffer` without a host pointer -/
def doCreateBuffer (s : CLState) (context : Handle) (flags size : Nat) : Resp × CLState :=
  if (s.contexts.find? (fun c => c.1 == context)).isNone then (Resp.err CL_INVALID_CONTEXT, s)
  else if hasFlag flags CL_MEM_READ_ONLY && hasFlag flags CL_MEM_WRITE_ONLY then
    (Resp.err CL_INVALID_VALUE, s)
  else if size = 0 then (Resp.err CL_INVALID_BUFFER_SIZE, s)
  else (Resp.created s.next,
        { s with next := s.next + 1,
                 mems := s.mems ++ [{ id := s.next, context := context, flags := flags,
                                      released := false,
                                      data := (List.range (size / sizeof_float)).map
                                        (s.junk s.next) }] })

/-- The argument checks shared by `clEnqueueWriteBuffer` and `clEnqueueReadBuffer`:
the error to report, or the buffer to transfer. -/
def checkTransfer (s : CLState) (command_queue buffer offset size : Nat) : Except Int MemObj :=
  match s.queues.find? (fun q => q.1 == command_queue) with
  | none => Except.error CL_INVALID_COMMAND_QUEUE
  | some q =>
    match liveMem s buffer with
    | none => Except.error CL_INVALID_MEM_OBJECT
    | some b =>
      if b.context ≠ q.2 then Except.error CL_INVALID_CONTEXT
      else if size = 0 ∨ sizeof_float * b.data.length < offset + size ∨
          offset % sizeof_float ≠ 0 ∨ size % sizeof_float ≠ 0 then
        Except.error CL_INVALID_VALUE
      else Except.ok b

/-- The call `clEnqueueWriteBuffer`; the transfer is complete when the call returns. -/
def doEnqueueWriteBuffer (s : CLState) (command_queue buffer offset size : Nat)
    (ptr : List F32) : Resp × CLState :=
  match checkTransfer s command_queue buffer offset size with
  | Except.error e => (Resp.err e, s)
  | Except.ok b =>
    if ptr.length < size / sizeof_float then (Resp.err CL_INVALID_VALUE, s)
    else
      let s1 := (drain command_queue s).2
      (Resp.ok,
       { s1 with mems := s1.mems.map (fun c =>
           if c.id == b.id then
             { c with data := c.data.take (offset / sizeof_float) ++
                        ptr.take (size / sizeof_float) ++
                        c.data.drop (offset / sizeof_float + size / sizeof_float) }
           else c) })

/-- The call `clEnqueueReadBuffer`; the transfer is complete when the call returns. -/
def doEnqueueReadBuffer (s : CLState) (command_queue buffer offset size : Nat) :
    Resp × CLState :=
  match checkTransfer s command_queue buffer offset size with
  | Except.error e => (Resp.err e, s)
  | Except.ok b =>
    let s1 := (drain command_queue s).2
    ({ Resp.ok with
        host := ((findMem s1.mems b.id).map
          (fun c => (c.data.drop (offset / sizeof_float)).take (size / sizeof_float))) },
     s1)

/-- The call `clSetKernelArg` for a buffer argument -/
def doSetKernelArg (s : CLState) (kernel arg_index arg_size arg_value : Nat) : Resp × CLState :=
  match s.kernels.find? (fun k => k.id == kernel) with
  | none => (Resp.err CL_INVALID_KERNEL, s)
  | some k =>
    if k.info.arity ≤ arg_index then (Resp.err CL_INVALID_ARG_INDEX, s)
    else if arg_size ≠ sizeof_cl_mem then (Resp.err CL_INVALID_ARG_SIZE, s)
    else if arg_value ≠ 0 ∧ (liveMem s arg_value).isNone then (Resp.err CL_INVALID_MEM_OBJECT, s)
    else (Resp.ok,
          { s with kernels := s.kernels.map (fun x =>
              if x.id == kernel then
                { x with args := (arg_index, arg_value) ::
                    x.args.filter (fun a => a.1 != arg_index) }
              else x) })

/-- The call `clEnqueueNDRangeKernel` with no offset and no local size -/
def doEnqueueNDRangeKernel (s : CLState) (command_queue kernel work_dim : Nat)
    (global_work_size : List Nat) : Resp × CLState :=
  if (s.queues.find? (fun q => q.1 == command_queue)).isNone then
    (Resp.err CL_INVALID_COMMAND_QUEUE, s)
  else
    match s.kernels.find? (fun k => k.id == kernel) with
    | none => (Resp.err CL_INVALID_KERNEL, s)
    | some k =>
      match boundArgs k with
      | none => (Resp.err CL_INVALID_KERNEL_ARGS, s)
      | some args =>
        if work_dim ≠ 1 then (Resp.err CL_INVALID_WORK_DIMENSION, s)
        else
          match global_work_size.head? with
          | none => (Resp.err CL_INVALID_GLOBAL_WORK_SIZE, s)
          | some g =>
            if g = 0 then (Resp.err CL_INVALID_GLOBAL_WORK_SIZE, s)
            else (Resp.ok,
                  { s with pending := s.pending ++
                      [{ queue := command_queue, body := k.info.body, args := args,
                         global := g }] })

/-- The call `clFinish` -/
def doFinish (s : CLState) (command_queue : Handle) : Resp × CLState :=
  if (s.queues.find? (fun q => q.1 == command_queue)).isNone then
    (Resp.err CL_INVALID_COMMAND_QUEUE, s)
  else (Resp.err (drain command_queue s).1, (drain command_queue s).2)

/-- The reference runtime. -/
def clBackend : Backend CLState := fun s c =>
  match c with
  | Call.clGetPlatformIDs n => doGetPlatformIDs s n
  | Call.clGetDeviceIDs p t n => doGetDeviceIDs s p t n
  | Call.clCreateContext props n devs _ => doCreateContext s props n devs
  | Call.clCreateCommandQueue ctx d props _ => doCreateCommandQueue s ctx d props
  | Call.clCreateProgramWithSource ctx n strs _ => doCreateProgramWithSource s ctx n strs
  | Call.clBuildProgram p n => doBuildProgram s p n
  | Call.clCreateKernel p name _ => doCreateKernel s p name
  | Call.clCreateBuffer ctx flags size _ => doCreateBuffer s ctx flags size
  | Call.clEnqueueWriteBuffer q b _ off size ptr => doEnqueueWriteBuffer s q b off size ptr
  | Call.clSetKernelArg k i size v => doSetKernelArg s k i size v
  | Call.clEnqueueNDRangeKernel q k dim g => doEnqueueNDRangeKernel s q k dim g
  | Call.clFinish q => doFinish s q
  | Call.clEnqueueReadBuffer q b _ off size => doEnqueueReadBuffer s q b off size
  | Call.clReleaseMemObject h =>
    if (liveMem s h).isNone then (Resp.err CL_INVALID_MEM_OBJECT, s)
    else (Resp.ok,
          { s with
              mems := s.mems.map
                (fun b => if b.id == h then { b with released := true } else b) })
  | Call.clReleaseProgram h =>
    if (s.programs.find? (fun p => p.id == h)).isNone then (Resp.err CL_INVALID_PROGRAM, s)
    else (Resp.ok, { s with programs := s.programs.filter (fun p => p.id != h) })
  | Call.clReleaseKernel h =>
    if (s.kernels.find? (fun k => k.id == h)).isNone then (Resp.err CL_INVALID_KERNEL, s)
    else (Resp.ok, { s with kernels := s.kernels.filter (fun k => k.id != h) })
  | Call.clReleaseCommandQueue h =>
    if (s.queues.find? (fun q => q.1 == h)).isNone then (Resp.err CL_INVALID_COMMAND_QUEUE, s)
    else (Resp.ok, { (drain h s).2 with queues := s.queues.filter (fun q => q.1 != h) })
  | Call.clReleaseContext h =>
    if (s.contexts.find? (fun c => c.1 == h)).isNone then (Resp.err CL_INVALID_CONTEXT, s)
    else (Resp.ok, { s with contexts := s.contexts.filter (fun c => c.1 != h) })

/-- A host with one platform (handle 1) that has one GPU device (handle 2), in
the state given by the remaining fields. -/
def hostState (junk : Handle → Nat → F32) (next : Handle) (ctxs : List (Handle × List Handle))
    (qs : List (Handle × Handle)) (progs : List ProgramObj) (kerns : List KernelObj)
    (mems : DevMem) (pend : List Command) : CLState :=
  { icd := true, platforms := [1], devices := [(1, 2, CL_DEVICE_TYPE_GPU)], junk := junk,
    next := next, contexts := ctxs, queues := qs, programs := progs, kernels := kerns,
    mems := mems, pending := pend }

/-- The host of `hostState` before any call: no objects yet, handles from 3 on. -/
def gpuHost (junk : Handle → Nat → F32) : CLState := hostState junk 3 [] [] [] [] [] []

/-- Backend `B`, except that every call satisfying `p` fails with
`CL_OUT_OF_HOST_MEMORY` and has no effect.  Irreducible, so that proofs unfold it
through `failing_apply` only. -/
@[irreducible]
def failing {σ : Type} (p : Call → Bool) (B : Backend σ) : Backend σ :=
  fun s c =>
  if p c then (Resp.err CL_OUT_OF_HOST_MEMORY, s) else B s c

/-- The call is a `clBuildProgram`. -/
def isBuildProgram : Call → Bool
  | Call.clBuildProgram _ _ => true
  | _ => false

/-- The call is a `clEnqueueReadBuffer`. -/
def isReadBuffer : Call → Bool
  | Call.clEnqueueReadBuffer _ _ _ _ _ => true
  | _ => false

/-- A host whose only device is a CPU: the GPU query finds nothing. -/
def cpuHost : CLState :=
  { icd := true, platforms := [1], devices := [(1, 2, CL_DEVICE_TYPE_CPU)],
    junk := fun _ _ => ofInt 0, next := 3, contexts := [], queues := [], programs := [],
    kernels := [], mems := [], pending := [] }

/-- A host without any platform, whose OpenCL library is not the ICD loader: the
platform query succeeds and reports zero platforms. -/
def bareHost : CLState :=
  { icd := false, platforms := [], devices := [], junk := fun _ _ => ofInt 0, next := 1,
    contexts := [], queues := [], programs := [], kernels := [], mems := [], pending := [] }

/-! ## Reading a run -/

/-- The answer to the `i`-th call of a run (a plain success past the end of the trace). -/
def answer (o : Outcome) (i : Nat) : Resp :=
  match o.trace[i]? with
  | some e => e.resp
  | none => Resp.ok

/-- The 21 calls of a run of `mainWith` that passes all three checks, as
determined by the answers `r i` to them. -/
def pipeline (dataSize : Nat) (inputData : List F32) (r : Nat → Resp) : List Event :=
  [⟨Call.clGetPlatformIDs 1, r 0⟩,
   ⟨Call.clGetDeviceIDs (r 0).ids.head? CL_DEVICE_TYPE_GPU 1, r 1⟩,
   ⟨Call.clCreateContext [some CL_CONTEXT_PLATFORM, (r 0).ids.head?, some 0] 1
      [(r 1).ids.head?] true, r 2⟩,
   ⟨Call.clCreateCommandQueue (r 2).handle (r 1).ids.head? 0 true, r 3⟩,
   ⟨Call.clCreateProgramWithSource (r 2).handle 1 [KernelSource] true, r 4⟩,
   ⟨Call.clBuildProgram (r 4).handle 0, r 5⟩,
   ⟨Call.clCreateKernel (r 4).handle "hello" true, r 6⟩,
   ⟨Call.clCreateBuffer (r 2).handle CL_MEM_READ_ONLY (sizeof_float * dataSize) false, r 7⟩,
   ⟨Call.clCreateBuffer (r 2).handle CL_MEM_WRITE_ONLY (sizeof_float * dataSize) false, r 8⟩,
   ⟨Call.clEnqueueWriteBuffer (r 3).handle (r 7).handle CL_TRUE 0 (sizeof_float * dataSize)
      inputData, r 9⟩,
   ⟨Call.clSetKernelArg (r 6).handle 0 sizeof_cl_mem (r 7).handle, r 10⟩,
   ⟨Call.clSetKernelArg (r 6).handle 1 sizeof_cl_mem (r 8).handle, r 11⟩,
   ⟨Call.clEnqueueNDRangeKernel (r 3).handle (r 6).handle 1 [dataSize], r 12⟩,
   ⟨Call.clFinish (r 3).handle, r 13⟩,
   ⟨Call.clEnqueueReadBuffer (r 3).handle (r 8).handle CL_TRUE 0 (sizeof_float * dataSize),
      r 14⟩,
   ⟨Call.clReleaseMemObject (r 7).handle, r 15⟩,
   ⟨Call.clReleaseMemObject (r 8).handle, r 16⟩,
   ⟨Call.clReleaseProgram (r 4).handle, r 17⟩,
   ⟨Call.clReleaseKernel (r 6).handle, r 18⟩,
   ⟨Call.clReleaseCommandQueue (r 3).handle, r 19⟩,
   ⟨Call.clReleaseContext (r 2).handle, r 20⟩]

/-- What `mainWith` does, as a function of the answers it receives. -/
def outcomeOf (dataSize : Nat) (inputData : List F32) (r : Nat → Resp) : Outcome :=
  if (r 0).status ≠ CL_SUCCESS then
    { ret := 1, stdout := "Unable to get platform_id\n",
      results := List.replicate dataSize (ofInt 0),
      trace := (pipeline dataSize inputData r).take 1 }
  else if (r 1).status ≠ CL_SUCCESS then
    { ret := 1, stdout := "Unable to get device_id\n",
      results := List.replicate dataSize (ofInt 0),
      trace := (pipeline dataSize inputData r).take 2 }
  else if (r 5).status ≠ CL_SUCCESS then
    { ret := 1, stdout := "Error building program\n",
      results := List.replicate dataSize (ofInt 0),
      trace := (pipeline dataSize inputData r).take 6 }
  else
    { ret := 0,
      stdout := printLoop dataSize (hostStore (List.replicate dataSize (ofInt 0)) (r 14).host)
        "output: " ++ "\n",
      results := hostStore (List.replicate dataSize (ofInt 0)) (r 14).host,
      trace := pipeline dataSize inputData r }

/-- The answers of the reference runtime on `gpuHost` to the 21 calls of
`mainWith x.length x`; `back` is what the readback stores in host memory. -/
def gpuAnswers (back : Option (List F32)) (readStatus : Int) : Nat → Resp
  | 0 => { status := CL_SUCCESS, handle := 0, ids := [1], num := some 1, host := none }
  | 1 => { status := CL_SUCCESS, handle := 0, ids := [2], num := some 1, host := none }
  | 2 => Resp.created 3
  | 3 => Resp.created 4
  | 4 => Resp.created 5
  | 6 => Resp.created 6
  | 7 => Resp.created 7
  | 8 => Resp.created 8
  | 14 => { status := readStatus, handle := 0, ids := [], num := none, host := back }
  | _ => Resp.ok

/-- The stage of the pipeline a call belongs to.  Buffer allocations carry their
access flags, transfers their blocking flag, argument bindings their slot. -/
inductive Stage where
  | platformLookup
  | deviceLookup
  | contextCreation
  | queueCreation
  | programCreation
  | build
  | kernelExtraction
  | bufferAllocation (flags : Nat)
  | inputWrite (blocking : Nat)
  | argumentBinding (slot : Nat)
  | dispatch
  | finish
  | readback (blocking : Nat)
  | release
deriving DecidableEq

/-- The stage of a call. -/
def Call.stage : Call → Stage
  | Call.clGetPlatformIDs _ => Stage.platformLookup
  | Call.clGetDeviceIDs _ _ _ => Stage.deviceLookup
  | Call.clCreateContext _ _ _ _ => Stage.contextCreation
  | Call.clCreateCommandQueue _ _ _ _ => Stage.queueCreation
  | Call.clCreateProgramWithSource _ _ _ _ => Stage.programCreation
  | Call.clBuildProgram _ _ => Stage.build
  | Call.clCreateKernel _ _ _ => Stage.kernelExtraction
  | Call.clCreateBuffer _ flags _ _ => Stage.bufferAllocation flags
  | Call.clEnqueueWriteBuffer _ _ blocking _ _ _ => Stage.inputWrite blocking
  | Call.clSetKernelArg _ slot _ _ => Stage.argumentBinding slot
  | Call.clEnqueueNDRangeKernel _ _ _ _ => Stage.dispatch
  | Call.clFinish _ => Stage.finish
  | Call.clEnqueueReadBuffer _ _ blocking _ _ => Stage.readback blocking
  | Call.clReleaseMemObject _ => Stage.release
  | Call.clReleaseProgram _ => Stage.release
  | Call.clReleaseKernel _ => Stage.release
  | Call.clReleaseCommandQueue _ => Stage.release
  | Call.clReleaseContext _ => Stage.release

/-- The fixed order of the pipeline: fifteen stages, then the six releases. -/
def pipelineOrder : List Stage :=
  [Stage.platformLookup, Stage.deviceLookup, Stage.contextCreation, Stage.queueCreation,
   Stage.programCreation, Stage.build, Stage.kernelExtraction,
   Stage.bufferAllocation CL_MEM_READ_ONLY, Stage.bufferAllocation CL_MEM_WRITE_ONLY,
   Stage.inputWrite CL_TRUE, Stage.argumentBinding 0, Stage.argumentBinding 1, Stage.dispatch,
   Stage.finish, Stage.readback CL_TRUE, Stage.release, Stage.release, Stage.release,
   Stage.release, Stage.release, Stage.release]

/-- The kinds of object `main` creates and releases. -/
inductive Kind where
  | context
  | queue
  | program
  | kernel
  | buffer
deriving DecidableEq

/-- The object a creation call yields: its kind and the handle returned. -/
def Event.created (e : Event) : Option (Kind × Handle) :=
  match e.call with
  | Call.clCreateContext _ _ _ _ => some (Kind.context, e.resp.handle)
  | Call.clCreateCommandQueue _ _ _ _ => some (Kind.queue, e.resp.handle)
  | Call.clCreateProgramWithSource _ _ _ _ => some (Kind.program, e.resp.handle)
  | Call.clCreateKernel _ _ _ => some (Kind.kernel, e.resp.handle)
  | Call.clCreateBuffer _ _ _ _ => some (Kind.buffer, e.resp.handle)
  | _ => none

/-- The object a release call is given: its kind and handle. -/
def Event.released (e : Event) : Option (Kind × Handle) :=
  match e.call with
  | Call.clReleaseMemObject h => some (Kind.buffer, h)
  | Call.clReleaseProgram h => some (Kind.program, h)
  | Call.clReleaseKernel h => some (Kind.kernel, h)
  | Call.clReleaseCommandQueue h => some (Kind.queue, h)
  | Call.clReleaseContext h => some (Kind.context, h)
  | _ => none

/-! ## Exact squares in binary32 -/

theorem bitLenAux_le : ∀ (f m k : Nat), m ≤ f → m < 2 ^ k → bitLenAux f m ≤ k := by
  intro f
  induction f with
  | zero => intro m k _ _; simp [bitLenAux]
  | succ f ih =>
    intro m k hm hk
    unfold bitLenAux
    split_ifs with h0
    · exact Nat.zero_le _
    · cases k with
      | zero => simp at hk; omega
      | succ k =>
        have h1 : m / 2 ≤ f := by omega
        have h2 : m / 2 < 2 ^ k := by
          rw [pow_succ] at hk
          omega
        have := ih (m / 2) k h1 h2
        omega

theorem bitLen_le (m k : Nat) (h : m < 2 ^ k) : bitLen m ≤ k :=
  bitLenAux_le m m k (Nat.le_refl m) h

theorem stripZeros_odd (o : Nat) (ho : o % 2 = 1) :
    ∀ (t fuel : Nat) (e : Int), t ≤ fuel → stripZeros fuel (o * 2 ^ t) e = (o, e + t) := by
  intro t
  induction t with
  | zero =>
    intro fuel e _
    cases fuel with
    | zero => simp [stripZeros]
    | succ f =>
      have : ¬ (o % 2 = 0 ∧ o ≠ 0) := by omega
      simp [stripZeros, this]
  | succ t ih =>
    intro fuel e hf
    cases fuel with
    | zero => omega
    | succ f =>
      have hpos : 0 < o * 2 ^ t := Nat.mul_pos (by omega) (Nat.pow_pos (by norm_num))
      have h1 : o * 2 ^ (t + 1) = 2 * (o * 2 ^ t) := by rw [pow_succ]; ring
      have h2 : (o * 2 ^ (t + 1)) % 2 = 0 ∧ o * 2 ^ (t + 1) ≠ 0 := by
        rw [h1]; constructor <;> omega
      have h3 : o * 2 ^ (t + 1) / 2 = o * 2 ^ t := by rw [h1]; omega
      unfold stripZeros
      rw [if_pos h2, h3, ih f (e + 1) (by omega)]
      congr 1
      push_cast
      ring

theorem canon_odd (s : Bool) (o t : Nat) (e : Int) (ho : o % 2 = 1) :
    canon s (o * 2 ^ t) e = F32.fin s o (e + t) := by
  have hpos : 0 < o * 2 ^ t := Nat.mul_pos (by omega) (Nat.pow_pos (by norm_num))
  have ht : t ≤ o * 2 ^ t := by
    have h1 : t < 2 ^ t := Nat.lt_two_pow t
    have h2 : 2 ^ t ≤ o * 2 ^ t := Nat.le_mul_of_pos_left _ (by omega)
    omega
  have h0 : ¬ o * 2 ^ t = 0 := by omega
  simp only [canon, if_neg h0, stripZeros_odd o ho t (o * 2 ^ t) e ht]

theorem roundF32_exact (s : Bool) (M : Nat) (E : Int) (h0 : M ≠ 0) (hM : M < 2 ^ 24)
    (hlo : -149 ≤ E) (hhi : E ≤ 104) : roundF32 s M E = canon s M E := by
  have hb : bitLen M ≤ 24 := bitLen_le M 24 hM
  have hq : max (E + (bitLen M : Int) - 24) (-149) ≤ E := by
    apply max_le <;> omega
  have hp : ¬ ((bitLen M : Int) + E > 128) := by omega
  simp only [roundF32, if_neg h0, if_pos hq, pack, if_neg hp]

theorem exists_odd_mul_pow (a : Nat) (ha : a ≠ 0) : ∃ o t : Nat, o % 2 = 1 ∧ a = o * 2 ^ t := by
  obtain ⟨k, m, hm, h⟩ := Nat.exists_eq_two_pow_mul_odd ha
  exact ⟨m, k, Nat.odd_iff.mp hm, by rw [h]; ring⟩

theorem fmul_self_nat (s : Bool) (a : Nat) (h : a * a ≤ 2 ^ 24) :
    fmul (roundF32 s a 0) (roundF32 s a 0) = roundF32 false (a * a) 0 := by
  by_cases ha : a = 0
  · subst ha
    cases s <;> decide
  by_cases htop : a * a = 2 ^ 24
  · have : a = 4096 := by nlinarith
    subst this
    cases s <;> decide
  have hlt : a * a < 2 ^ 24 := by omega
  have ha24 : a < 2 ^ 24 := by nlinarith
  obtain ⟨o, t, ho, rfl⟩ := exists_odd_mul_pow a ha
  have ho1 : 1 ≤ o := by omega
  have hoo : (o * o) % 2 = 1 := by rw [Nat.mul_mod, ho]
  have hsq : o * 2 ^ t * (o * 2 ^ t) = (o * o) * 2 ^ (2 * t) := by ring
  have hpow : 2 ^ (2 * t) < 2 ^ 24 := by
    have : 1 * 2 ^ (2 * t) ≤ (o * o) * 2 ^ (2 * t) :=
      Nat.mul_le_mul_right _ (Nat.mul_pos ho1 ho1)
    omega
  have ht : 2 * t < 24 := (Nat.pow_lt_pow_iff_right (by norm_num)).mp hpow
  have hoo24 : o * o < 2 ^ 24 := by
    have : (o * o) * 1 ≤ (o * o) * 2 ^ (2 * t) :=
      Nat.mul_le_mul_left _ (Nat.pow_pos (by norm_num))
    omega
  have hoo0 : o * o ≠ 0 := by
    have := Nat.mul_pos ho1 ho1
    omega
  have hsq0 : o * 2 ^ t * (o * 2 ^ t) ≠ 0 := by
    rw [hsq]
    exact Nat.mul_ne_zero hoo0 (by positivity)
  rw [roundF32_exact s (o * 2 ^ t) 0 ha ha24 (by norm_num) (by norm_num), canon_odd s o t 0 ho]
  rw [roundF32_exact false _ 0 hsq0 hlt (by norm_num) (by norm_num), hsq,
    canon_odd false (o * o) (2 * t) 0 hoo]
  simp only [fmul, Bool.xor_self]
  rw [roundF32_exact false (o * o) _ hoo0 hoo24 (by omega) (by omega)]
  have := canon_odd false (o * o) 0 (0 + (t : Int) + (0 + (t : Int))) hoo
  simp only [pow_zero, mul_one] at this
  rw [this]
  congr 1
  push_cast
  ring

theorem fmul_self_ofInt (k : Int) (h : k * k ≤ 2 ^ 24) :
    fmul (ofInt k) (ofInt k) = ofInt (k * k) := by
  have hnn : ¬ (k * k < 0) := not_lt.mpr (mul_self_nonneg k)
  have habs : (k * k).natAbs = k.natAbs * k.natAbs := Int.natAbs_mul k k
  have hle : k.natAbs * k.natAbs ≤ 2 ^ 24 := by
    have h1 : ((k.natAbs * k.natAbs : Nat) : Int) = k * k := by
      rw [← habs]
      exact Int.natAbs_of_nonneg (mul_self_nonneg k)
    have h2 : ((k.natAbs * k.natAbs : Nat) : Int) ≤ ((2 ^ 24 : Nat) : Int) := by
      rw [h1]
      exact_mod_cast h
    exact_mod_cast h2
  unfold ofInt
  rw [habs, decide_eq_false hnn]
  exact fmul_self_nat _ _ hle

/-! ## The kernel over its index space -/

theorem hello_item (hi ho c c1 : Handle) (r r1 : Bool) (x d : List F32) (k : Nat)
    (hne : hi ≠ ho) (hk : k < x.length) (hd : d.length = x.length) :
    helloInfo.body [hi, ho] (fun t => if t = 0 then k else 0)
        [⟨hi, c, CL_MEM_READ_ONLY, r, x⟩, ⟨ho, c1, CL_MEM_WRITE_ONLY, r1, d⟩] =
      some [⟨hi, c, CL_MEM_READ_ONLY, r, x⟩,
            ⟨ho, c1, CL_MEM_WRITE_ONLY, r1, d.set k (fmul x[k] x[k])⟩] := by
  have hne1 : ¬ ho = hi := fun h => hne h.symm
  have hb : (hi == ho) = false := by simpa using hne
  simp [helloInfo, hello, load, store, findMem, hasFlag, CL_MEM_READ_ONLY, CL_MEM_WRITE_ONLY,
    List.find?, hne, hne1, hk, hd, hb]

/-- Work-items with the ids `ids`, run one after the other in that order, leave
the square of `x[i]` at every `i` among the ids and the old contents elsewhere. -/
theorem runItems_hello_ids (hi ho c c1 : Handle) (r r1 : Bool) (x : List F32) (hne : hi ≠ ho) :
    ∀ (ids : List Nat) (d : List F32), (∀ i ∈ ids, i < x.length) → d.length = x.length →
      ∃ d1 : List F32, d1.length = x.length ∧
        (∀ i, d1[i]? = if i ∈ ids then x[i]?.map (fun v => fmul v v) else d[i]?) ∧
        runItems (helloInfo.body [hi, ho]) ids
            [⟨hi, c, CL_MEM_READ_ONLY, r, x⟩, ⟨ho, c1, CL_MEM_WRITE_ONLY, r1, d⟩] =
          some [⟨hi, c, CL_MEM_READ_ONLY, r, x⟩, ⟨ho, c1, CL_MEM_WRITE_ONLY, r1, d1⟩] := by
  intro ids
  induction ids with
  | nil =>
    intro d _ hd
    exact ⟨d, hd, by simp, by simp [runItems]⟩
  | cons k ids ih =>
    intro d hids hd
    have hk : k < x.length := hids k (List.mem_cons_self k ids)
    obtain ⟨d1, hlen, hpt, hrun⟩ :=
      ih (d.set k (fmul x[k] x[k])) (fun i hi => hids i (List.mem_cons_of_mem k hi))
        (by simp [hd])
    refine ⟨d1, hlen, ?_, ?_⟩
    · intro i
      rw [hpt i, List.getElem?_set]
      by_cases h1 : i ∈ ids
      · simp [h1]
      · by_cases h2 : k = i
        · subst h2
          simp [hk, hd]
        · have h3 : ¬ i = k := fun h => h2 h.symm
          simp [h1, h2, h3]
    · simp only [runItems]
      rw [hello_item hi ho c c1 r r1 x d k hne hk hd]
      simpa using hrun

/-- The kernel over its whole index space, in any order of the work-items. -/
theorem runItems_hello_schedule (hi ho c c1 : Handle) (r r1 : Bool) (x d : List F32)
    (ids : List Nat) (hne : hi ≠ ho) (hd : d.length = x.length)
    (hids : ids.Perm (List.range x.length)) :
    runItems (helloInfo.body [hi, ho]) ids
        [⟨hi, c, CL_MEM_READ_ONLY, r, x⟩, ⟨ho, c1, CL_MEM_WRITE_ONLY, r1, d⟩] =
      some [⟨hi, c, CL_MEM_READ_ONLY, r, x⟩,
            ⟨ho, c1, CL_MEM_WRITE_ONLY, r1, x.map (fun v => fmul v v)⟩] := by
  have hmem : ∀ i, i ∈ ids ↔ i < x.length := fun i => by
    rw [hids.mem_iff, List.mem_range]
  obtain ⟨d1, hlen, hpt, hrun⟩ :=
    runItems_hello_ids hi ho c c1 r r1 x hne ids d (fun i hi => (hmem i).mp hi) hd
  have : d1 = x.map (fun v => fmul v v) := by
    apply List.ext_getElem?
    intro i
    rw [hpt i]
    by_cases h : i < x.length
    · simp [(hmem i).mpr h]
    · have h4 : x.length ≤ i := by omega
      have h5 : d.length ≤ i := by omega
      have h6 : i ∉ ids := fun hi => h ((hmem i).mp hi)
      simp [h6, List.getElem?_eq_none h4, List.getElem?_eq_none h5]
  rw [hrun, this]

theorem runItems_hello (hi ho c c1 : Handle) (r r1 : Bool) (x d : List F32) (hne : hi ≠ ho)
    (hd : d.length = x.length) :
    runItems (helloInfo.body [hi, ho]) (List.range x.length)
        [⟨hi, c, CL_MEM_READ_ONLY, r, x⟩, ⟨ho, c1, CL_MEM_WRITE_ONLY, r1, d⟩] =
      some [⟨hi, c, CL_MEM_READ_ONLY, r, x⟩,
            ⟨ho, c1, CL_MEM_WRITE_ONLY, r1, x.map (fun v => fmul v v)⟩] :=
  runItems_hello_schedule hi ho c c1 r r1 x d _ hne hd (List.Perm.refl _)

/-! ## The reference runtime, call by call

The answer and the next state for each of the 21 calls of the run on `gpuHost`. -/

theorem step1 (junk : Handle → Nat → F32) :
    clBackend (hostState junk 3 [] [] [] [] [] []) (Call.clGetPlatformIDs 1) =
      (⟨CL_SUCCESS, 0, [1], some 1, none⟩, hostState junk 3 [] [] [] [] [] []) := by
  simp [hostState, clBackend, doGetPlatformIDs, Resp.ok, Resp.err]

theorem step2 (junk : Handle → Nat → F32) :
    clBackend (hostState junk 3 [] [] [] [] [] [])
        (Call.clGetDeviceIDs (some 1) CL_DEVICE_TYPE_GPU 1) =
      (⟨CL_SUCCESS, 0, [2], some 1, none⟩, hostState junk 3 [] [] [] [] [] []) := by
  simp [hostState, clBackend, doGetDeviceIDs, devicesOf, Resp.ok, Resp.err, CL_DEVICE_TYPE_GPU]

theorem step3 (junk : Handle → Nat → F32) :
    clBackend (hostState junk 3 [] [] [] [] [] [])
        (Call.clCreateContext [some CL_CONTEXT_PLATFORM, some 1, some 0] 1 [some 2] true) =
      (⟨CL_SUCCESS, 3, [], none, none⟩, hostState junk 4 [(3, [2])] [] [] [] [] []) := by
  simp [hostState, clBackend, doCreateContext, Resp.ok, Resp.err, Resp.created]

theorem step4 (junk : Handle → Nat → F32) :
    clBackend (hostState junk 4 [(3, [2])] [] [] [] [] [])
        (Call.clCreateCommandQueue 3 (some 2) 0 true) =
      (⟨CL_SUCCESS, 4, [], none, none⟩, hostState junk 5 [(3, [2])] [(4, 3)] [] [] [] []) := by
  simp [hostState, clBackend, doCreateCommandQueue, Resp.ok, Resp.err, Resp.created]

theorem step5 (junk : Handle → Nat → F32) :
    clBackend (hostState junk 5 [(3, [2])] [(4, 3)] [] [] [] [])
        (Call.clCreateProgramWithSource 3 1 [KernelSource] true) =
      (⟨CL_SUCCESS, 5, [], none, none⟩,
        hostState junk 6 [(3, [2])] [(4, 3)] [⟨5, 3, KernelSource, false⟩] [] [] []) := by
  simp [hostState, clBackend, doCreateProgramWithSource, Resp.ok, Resp.err, Resp.created,
    String.join]

theorem step6 (junk : Handle → Nat → F32) :
    clBackend (hostState junk 6 [(3, [2])] [(4, 3)] [⟨5, 3, KernelSource, false⟩] [] [] [])
        (Call.clBuildProgram 5 0) =
      (⟨CL_SUCCESS, 0, [], none, none⟩,
        hostState junk 6 [(3, [2])] [(4, 3)] [⟨5, 3, KernelSource, true⟩] [] [] []) := by
  simp [hostState, clBackend, doBuildProgram, Resp.ok, Resp.err, Resp.created, compileCL]

theorem step7 (junk : Handle → Nat → F32) :
    clBackend (hostState junk 6 [(3, [2])] [(4, 3)] [⟨5, 3, KernelSource, true⟩] [] [] [])
        (Call.clCreateKernel 5 "hello" true) =
      (⟨CL_SUCCESS, 6, [], none, none⟩,
        hostState junk 7 [(3, [2])] [(4, 3)] [⟨5, 3, KernelSource, true⟩] [⟨6, helloInfo, []⟩]
          [] []) := by
  simp [hostState, clBackend, doCreateKernel, Resp.ok, Resp.err, Resp.created, compileCL,
    helloInfo]

theorem step8 (junk : Handle → Nat → F32) (n : Nat) (hn : 1 ≤ n) (ks : List KernelObj) :
    clBackend (hostState junk 7 [(3, [2])] [(4, 3)] [⟨5, 3, KernelSource, true⟩] ks [] [])
        (Call.clCreateBuffer 3 CL_MEM_READ_ONLY (sizeof_float * n) false) =
      (⟨CL_SUCCESS, 7, [], none, none⟩,
        hostState junk 8 [(3, [2])] [(4, 3)] [⟨5, 3, KernelSource, true⟩] ks
          [⟨7, 3, CL_MEM_READ_ONLY, false, (List.range n).map (junk 7)⟩] []) := by
  have h0 : ¬ n = 0 := by omega
  simp [hostState, clBackend, doCreateBuffer, Resp.ok, Resp.err, Resp.created, hasFlag,
    CL_MEM_READ_ONLY, CL_MEM_WRITE_ONLY, sizeof_float, h0]

theorem step9 (junk : Handle → Nat → F32) (n : Nat) (hn : 1 ≤ n) (ks : List KernelObj)
    (m : MemObj) :
    clBackend (hostState junk 8 [(3, [2])] [(4, 3)] [⟨5, 3, KernelSource, true⟩] ks [m] [])
        (Call.clCreateBuffer 3 CL_MEM_WRITE_ONLY (sizeof_float * n) false) =
      (⟨CL_SUCCESS, 8, [], none, none⟩,
        hostState junk 9 [(3, [2])] [(4, 3)] [⟨5, 3, KernelSource, true⟩] ks
          [m, ⟨8, 3, CL_MEM_WRITE_ONLY, false, (List.range n).map (junk 8)⟩] []) := by
  have h0 : ¬ n = 0 := by omega
  simp [hostState, clBackend, doCreateBuffer, Resp.ok, Resp.err, Resp.created, hasFlag,
    CL_MEM_READ_ONLY, CL_MEM_WRITE_ONLY, sizeof_float, h0]

theorem step10 (junk : Handle → Nat → F32) (x d0 d : List F32) (hn : 1 ≤ x.length)
    (hd0 : d0.length = x.length)
    (ps : List ProgramObj) (ks : List KernelObj) :
    clBackend (hostState junk 9 [(3, [2])] [(4, 3)] ps ks
          [⟨7, 3, CL_MEM_READ_ONLY, false, d0⟩, ⟨8, 3, CL_MEM_WRITE_ONLY, false, d⟩] [])
        (Call.clEnqueueWriteBuffer 4 7 CL_TRUE 0 (sizeof_float * x.length) x) =
      (⟨CL_SUCCESS, 0, [], none, none⟩,
        hostState junk 9 [(3, [2])] [(4, 3)] ps ks
          [⟨7, 3, CL_MEM_READ_ONLY, false, x⟩, ⟨8, 3, CL_MEM_WRITE_ONLY, false, d⟩] []) := by
  have h0 : ¬ x.length = 0 := by omega
  simp [hostState, clBackend, doEnqueueWriteBuffer, checkTransfer, liveMem, drain, Resp.ok,
    Resp.err, sizeof_float, h0, hd0]

theorem step11 (junk : Handle → Nat → F32) (x d : List F32) (ps : List ProgramObj) :
    clBackend (hostState junk 9 [(3, [2])] [(4, 3)] ps [⟨6, helloInfo, []⟩]
          [⟨7, 3, CL_MEM_READ_ONLY, false, x⟩, ⟨8, 3, CL_MEM_WRITE_ONLY, false, d⟩] [])
        (Call.clSetKernelArg 6 0 sizeof_cl_mem 7) =
      (⟨CL_SUCCESS, 0, [], none, none⟩,
        hostState junk 9 [(3, [2])] [(4, 3)] ps [⟨6, helloInfo, [(0, 7)]⟩]
          [⟨7, 3, CL_MEM_READ_ONLY, false, x⟩, ⟨8, 3, CL_MEM_WRITE_ONLY, false, d⟩] []) := by
  simp [hostState, clBackend, doSetKernelArg, liveMem, Resp.ok, Resp.err, helloInfo]

theorem step12 (junk : Handle → Nat → F32) (x d : List F32) (ps : List ProgramObj) :
    clBackend (hostState junk 9 [(3, [2])] [(4, 3)] ps [⟨6, helloInfo, [(0, 7)]⟩]
          [⟨7, 3, CL_MEM_READ_ONLY, false, x⟩, ⟨8, 3, CL_MEM_WRITE_ONLY, false, d⟩] [])
        (Call.clSetKernelArg 6 1 sizeof_cl_mem 8) =
      (⟨CL_SUCCESS, 0, [], none, none⟩,
        hostState junk 9 [(3, [2])] [(4, 3)] ps [⟨6, helloInfo, [(1, 8), (0, 7)]⟩]
          [⟨7, 3, CL_MEM_READ_ONLY, false, x⟩, ⟨8, 3, CL_MEM_WRITE_ONLY, false, d⟩] []) := by
  simp [hostState, clBackend, doSetKernelArg, liveMem, Resp.ok, Resp.err, helloInfo]

theorem step13 (junk : Handle → Nat → F32) (n : Nat) (hn : 1 ≤ n) (ps : List ProgramObj)
    (ms : DevMem) :
    clBackend (hostState junk 9 [(3, [2])] [(4, 3)] ps [⟨6, helloInfo, [(1, 8), (0, 7)]⟩] ms [])
        (Call.clEnqueueNDRangeKernel 4 6 1 [n]) =
      (⟨CL_SUCCESS, 0, [], none, none⟩,
        hostState junk 9 [(3, [2])] [(4, 3)] ps [⟨6, helloInfo, [(1, 8), (0, 7)]⟩] ms
          [⟨4, helloInfo.body, [7, 8], n⟩]) := by
  have h0 : ¬ n = 0 := by omega
  have hb : boundArgs ⟨6, helloInfo, [(1, 8), (0, 7)]⟩ = some [7, 8] := by
    simp [boundArgs, helloInfo, List.range, List.range.loop]
  simp [hostState, clBackend, doEnqueueNDRangeKernel, Resp.ok, Resp.err, hb, h0]

theorem drain_hello (junk : Handle → Nat → F32) (x d : List F32) (hd : d.length = x.length)
    (ps : List ProgramObj) (ks : List KernelObj) :
    drain 4 (hostState junk 9 [(3, [2])] [(4, 3)] ps ks
          [⟨7, 3, CL_MEM_READ_ONLY, false, x⟩, ⟨8, 3, CL_MEM_WRITE_ONLY, false, d⟩]
          [⟨4, helloInfo.body, [7, 8], x.length⟩]) =
      (CL_SUCCESS, hostState junk 9 [(3, [2])] [(4, 3)] ps ks
          [⟨7, 3, CL_MEM_READ_ONLY, false, x⟩,
           ⟨8, 3, CL_MEM_WRITE_ONLY, false, x.map (fun v => fmul v v)⟩] []) := by
  simp [drain, hostState, execCommand, runItems_hello 7 8 3 3 false false x d (by decide) hd]

theorem step14 (junk : Handle → Nat → F32) (x d : List F32) (hd : d.length = x.length)
    (ps : List ProgramObj) (ks : List KernelObj) :
    clBackend (hostState junk 9 [(3, [2])] [(4, 3)] ps ks
          [⟨7, 3, CL_MEM_READ_ONLY, false, x⟩, ⟨8, 3, CL_MEM_WRITE_ONLY, false, d⟩]
          [⟨4, helloInfo.body, [7, 8], x.length⟩])
        (Call.clFinish 4) =
      (⟨CL_SUCCESS, 0, [], none, none⟩,
        hostState junk 9 [(3, [2])] [(4, 3)] ps ks
          [⟨7, 3, CL_MEM_READ_ONLY, false, x⟩,
           ⟨8, 3, CL_MEM_WRITE_ONLY, false, x.map (fun v => fmul v v)⟩] []) := by
  have hq : ((hostState junk 9 [(3, [2])] [(4, 3)] ps ks
          [⟨7, 3, CL_MEM_READ_ONLY, false, x⟩, ⟨8, 3, CL_MEM_WRITE_ONLY, false, d⟩]
          [⟨4, helloInfo.body, [7, 8], x.length⟩]).queues.find? (fun q => q.1 == 4)).isNone
      = false := by
    simp [hostState]
  simp only [clBackend, doFinish, hq, drain_hello junk x d hd ps ks]
  simp [Resp.err]

theorem step15 (junk : Handle → Nat → F32) (x y : List F32) (hn : 1 ≤ x.length)
    (hy : y.length = x.length) (ps : List ProgramObj) (ks : List KernelObj) :
    clBackend (hostState junk 9 [(3, [2])] [(4, 3)] ps ks
          [⟨7, 3, CL_MEM_READ_ONLY, false, x⟩, ⟨8, 3, CL_MEM_WRITE_ONLY, false, y⟩] [])
        (Call.clEnqueueReadBuffer 4 8 CL_TRUE 0 (sizeof_float * x.length)) =
      (⟨CL_SUCCESS, 0, [], none, some y⟩,
        hostState junk 9 [(3, [2])] [(4, 3)] ps ks
          [⟨7, 3, CL_MEM_READ_ONLY, false, x⟩, ⟨8, 3, CL_MEM_WRITE_ONLY, false, y⟩] []) := by
  have h0 : ¬ x.length = 0 := by omega
  simp [hostState, clBackend, doEnqueueReadBuffer, checkTransfer, liveMem, drain, Resp.ok,
    Resp.err, sizeof_float, h0, hy, findMem]

theorem step16 (junk : Handle → Nat → F32) (x y : List F32) (ps : List ProgramObj)
    (ks : List KernelObj) :
    clBackend (hostState junk 9 [(3, [2])] [(4, 3)] ps ks
          [⟨7, 3, CL_MEM_READ_ONLY, false, x⟩, ⟨8, 3, CL_MEM_WRITE_ONLY, false, y⟩] [])
        (Call.clReleaseMemObject 7) =
      (⟨CL_SUCCESS, 0, [], none, none⟩,
        hostState junk 9 [(3, [2])] [(4, 3)] ps ks
          [⟨7, 3, CL_MEM_READ_ONLY, true, x⟩, ⟨8, 3, CL_MEM_WRITE_ONLY, false, y⟩] []) := by
  simp [hostState, clBackend, liveMem, Resp.ok, Resp.err]

theorem step17 (junk : Handle → Nat → F32) (x y : List F32) (ps : List ProgramObj)
    (ks : List KernelObj) :
    clBackend (hostState junk 9 [(3, [2])] [(4, 3)] ps ks
          [⟨7, 3, CL_MEM_READ_ONLY, true, x⟩, ⟨8, 3, CL_MEM_WRITE_ONLY, false, y⟩] [])
        (Call.clReleaseMemObject 8) =
      (⟨CL_SUCCESS, 0, [], none, none⟩,
        hostState junk 9 [(3, [2])] [(4, 3)] ps ks
          [⟨7, 3, CL_MEM_READ_ONLY, true, x⟩, ⟨8, 3, CL_MEM_WRITE_ONLY, true, y⟩] []) := by
  simp [hostState, clBackend, liveMem, Resp.ok, Resp.err]

theorem step18 (junk : Handle → Nat → F32) (ks : List KernelObj) (ms : DevMem) :
    clBackend (hostState junk 9 [(3, [2])] [(4, 3)] [⟨5, 3, KernelSource, true⟩] ks ms [])
        (Call.clReleaseProgram 5) =
      (⟨CL_SUCCESS, 0, [], none, none⟩,
        hostState junk 9 [(3, [2])] [(4, 3)] [] ks ms []) := by
  simp [hostState, clBackend, Resp.ok, Resp.err]

theorem step19 (junk : Handle → Nat → F32) (ms : DevMem) (a : List (Nat × Handle)) :
    clBackend (hostState junk 9 [(3, [2])] [(4, 3)] [] [⟨6, helloInfo, a⟩] ms [])
        (Call.clReleaseKernel 6) =
      (⟨CL_SUCCESS, 0, [], none, none⟩,
        hostState junk 9 [(3, [2])] [(4, 3)] [] [] ms []) := by
  simp [hostState, clBackend, Resp.ok, Resp.err]

theorem step20 (junk : Handle → Nat → F32) (ms : DevMem) :
    clBackend (hostState junk 9 [(3, [2])] [(4, 3)] [] [] ms [])
        (Call.clReleaseCommandQueue 4) =
      (⟨CL_SUCCESS, 0, [], none, none⟩,
        hostState junk 9 [(3, [2])] [] [] [] ms []) := by
  simp [hostState, clBackend, Resp.ok, Resp.err, drain]

theorem step21 (junk : Handle → Nat → F32) (ms : DevMem) :
    clBackend (hostState junk 9 [(3, [2])] [] [] [] ms [])
        (Call.clReleaseContext 3) =
      (⟨CL_SUCCESS, 0, [], none, none⟩,
        hostState junk 9 [] [] [] [] ms []) := by
  simp [hostState, clBackend, Resp.ok, Resp.err]

theorem hostStore_full (a d : List F32) (h : d.length = a.length) : hostStore a (some d) = d := by
  simp [hostStore, h]

theorem failing_apply {σ : Type} (p : Call → Bool) (B : Backend σ) (s : σ) (c : Call) :
    failing p B s c = if p c then (Resp.err CL_OUT_OF_HOST_MEMORY, s) else B s c := by
  unfold failing
  rfl

/-- The run of `mainWith` on the reference runtime with a GPU: every call
succeeds and the readback delivers the squares. -/
theorem mainWith_gpuHost (junk : Handle → Nat → F32) (x : List F32) (hn : 1 ≤ x.length) :
    mainWith x.length x clBackend (gpuHost junk) =
      outcomeOf x.length x (gpuAnswers (some (x.map (fun v => fmul v v))) CL_SUCCESS) := by
  have e8 := step8 junk x.length hn [⟨6, helloInfo, []⟩]
  have e9 := step9 junk x.length hn [⟨6, helloInfo, []⟩]
    ⟨7, 3, CL_MEM_READ_ONLY, false, (List.range x.length).map (junk 7)⟩
  have e10 := step10 junk x ((List.range x.length).map (junk 7))
    ((List.range x.length).map (junk 8)) hn (by simp) [⟨5, 3, KernelSource, true⟩]
    [⟨6, helloInfo, []⟩]
  have e11 := step11 junk x ((List.range x.length).map (junk 8)) [⟨5, 3, KernelSource, true⟩]
  have e12 := step12 junk x ((List.range x.length).map (junk 8)) [⟨5, 3, KernelSource, true⟩]
  have e13 := step13 junk x.length hn [⟨5, 3, KernelSource, true⟩]
    [⟨7, 3, CL_MEM_READ_ONLY, false, x⟩,
     ⟨8, 3, CL_MEM_WRITE_ONLY, false, (List.range x.length).map (junk 8)⟩]
  have e14 := step14 junk x ((List.range x.length).map (junk 8)) (by simp)
    [⟨5, 3, KernelSource, true⟩] [⟨6, helloInfo, [(1, 8), (0, 7)]⟩]
  have e15 := step15 junk x (x.map (fun v => fmul v v)) hn (by simp)
    [⟨5, 3, KernelSource, true⟩] [⟨6, helloInfo, [(1, 8), (0, 7)]⟩]
  have e16 := step16 junk x (x.map (fun v => fmul v v))
    [⟨5, 3, KernelSource, true⟩] [⟨6, helloInfo, [(1, 8), (0, 7)]⟩]
  have e17 := step17 junk x (x.map (fun v => fmul v v))
    [⟨5, 3, KernelSource, true⟩] [⟨6, helloInfo, [(1, 8), (0, 7)]⟩]
  unfold mainWith gpuHost outcomeOf pipeline
  simp only [step1, step2, step3, step4, step5, step6, step7, e8, e9, e10, e11, e12, e13, e14,
    e15, e16, e17, step18, step19, step20, step21, List.head?_cons, ne_eq,
    not_true_eq_false, if_false, gpuAnswers, Resp.created, Resp.ok, Resp.err]

/-- The same run when the readback fails: the earlier calls succeed, nothing is
stored in `results`, and the run still goes on to the end. -/
theorem mainWith_readFailure (junk : Handle → Nat → F32) (x : List F32) (hn : 1 ≤ x.length) :
    mainWith x.length x (failing isReadBuffer clBackend) (gpuHost junk) =
      outcomeOf x.length x (gpuAnswers none CL_OUT_OF_HOST_MEMORY) := by
  have e8 := step8 junk x.length hn [⟨6, helloInfo, []⟩]
  have e9 := step9 junk x.length hn [⟨6, helloInfo, []⟩]
    ⟨7, 3, CL_MEM_READ_ONLY, false, (List.range x.length).map (junk 7)⟩
  have e10 := step10 junk x ((List.range x.length).map (junk 7))
    ((List.range x.length).map (junk 8)) hn (by simp) [⟨5, 3, KernelSource, true⟩]
    [⟨6, helloInfo, []⟩]
  have e11 := step11 junk x ((List.range x.length).map (junk 8)) [⟨5, 3, KernelSource, true⟩]
  have e12 := step12 junk x ((List.range x.length).map (junk 8)) [⟨5, 3, KernelSource, true⟩]
  have e13 := step13 junk x.length hn [⟨5, 3, KernelSource, true⟩]
    [⟨7, 3, CL_MEM_READ_ONLY, false, x⟩,
     ⟨8, 3, CL_MEM_WRITE_ONLY, false, (List.range x.length).map (junk 8)⟩]
  have e14 := step14 junk x ((List.range x.length).map (junk 8)) (by simp)
    [⟨5, 3, KernelSource, true⟩] [⟨6, helloInfo, [(1, 8), (0, 7)]⟩]
  have e16 := step16 junk x (x.map (fun v => fmul v v))
    [⟨5, 3, KernelSource, true⟩] [⟨6, helloInfo, [(1, 8), (0, 7)]⟩]
  have e17 := step17 junk x (x.map (fun v => fmul v v))
    [⟨5, 3, KernelSource, true⟩] [⟨6, helloInfo, [(1, 8), (0, 7)]⟩]
  unfold mainWith gpuHost outcomeOf pipeline
  simp only [failing_apply, isReadBuffer, Bool.false_eq_true, if_true,
    step1, step2, step3, step4, step5, step6, step7, e8, e9, e10, e11, e12, e13, e14,
    e16, e17, step18, step19, step20, step21, List.head?_cons, ne_eq,
    not_true_eq_false, if_false, gpuAnswers, Resp.created, Resp.ok, Resp.err]

theorem oom_ne_success : ¬ CL_OUT_OF_HOST_MEMORY = CL_SUCCESS := by decide

/-- The run on the reference runtime when the build fails: six calls, then the
early return. -/
theorem mainWith_buildFailure (junk : Handle → Nat → F32) (n : Nat) (x : List F32) :
    mainWith n x (failing isBuildProgram clBackend) (gpuHost junk) =
      { ret := 1, stdout := "Error building program\n",
        results := List.replicate n (ofInt 0),
        trace :=
          [⟨Call.clGetPlatformIDs 1, ⟨CL_SUCCESS, 0, [1], some 1, none⟩⟩,
           ⟨Call.clGetDeviceIDs (some 1) CL_DEVICE_TYPE_GPU 1,
             ⟨CL_SUCCESS, 0, [2], some 1, none⟩⟩,
           ⟨Call.clCreateContext [some CL_CONTEXT_PLATFORM, some 1, some 0] 1 [some 2] true,
             ⟨CL_SUCCESS, 3, [], none, none⟩⟩,
           ⟨Call.clCreateCommandQueue 3 (some 2) 0 true, ⟨CL_SUCCESS, 4, [], none, none⟩⟩,
           ⟨Call.clCreateProgramWithSource 3 1 [KernelSource] true,
             ⟨CL_SUCCESS, 5, [], none, none⟩⟩,
           ⟨Call.clBuildProgram 5 0, Resp.err CL_OUT_OF_HOST_MEMORY⟩] } := by
  unfold mainWith gpuHost
  simp only [failing_apply, isBuildProgram, Bool.false_eq_true, if_true, if_false,
    step1, step2, step3, step4, step5, List.head?_cons, ne_eq, not_true_eq_false,
    Resp.err, oom_ne_success, not_false_eq_true]

/-! ## The shape of every run

Over any backend, a run of `mainWith` is `outcomeOf` applied to the answers
found in its own trace. -/

theorem mainWith_shape {σ : Type} (n : Nat) (x : List F32) (B : Backend σ) (s : σ) :
    mainWith n x B s = outcomeOf n x (answer (mainWith n x B s)) := by
  unfold mainWith
  simp only []
  split_ifs with h1 h2 h6
  · simp [outcomeOf, answer, pipeline, h1]
  · simp only [ne_eq, not_not] at h1
    simp [outcomeOf, answer, pipeline, h1, h2]
  · simp only [ne_eq, not_not] at h1 h2
    simp [outcomeOf, answer, pipeline, h1, h2, h6]
  · simp only [ne_eq, not_not] at h1 h2 h6
    simp [outcomeOf, answer, pipeline, h1, h2, h6]

theorem main_shape {σ : Type} (B : Backend σ) (s : σ) :
    main B s = outcomeOf DATA_SIZE inputData (answer (main B s)) :=
  mainWith_shape DATA_SIZE inputData B s

theorem main_gpuHost (junk : Handle → Nat → F32) :
    main clBackend (gpuHost junk) =
      outcomeOf DATA_SIZE inputData
        (gpuAnswers (some (inputData.map (fun v => fmul v v))) CL_SUCCESS) :=
  mainWith_gpuHost junk inputData (by decide)

theorem inputData_squares :
    inputData.map (fun v => fmul v v) =
      [ofInt 1, ofInt 4, ofInt 9, ofInt 16, ofInt 25, ofInt 36, ofInt 49, ofInt 64, ofInt 81,
       ofInt 100] := by
  decide

theorem printed_squares :
    printLoop DATA_SIZE
        [ofInt 1, ofInt 4, ofInt 9, ofInt 16, ofInt 25, ofInt 36, ofInt 49, ofInt 64, ofInt 81,
         ofInt 100] "output: " ++ "\n" =
      "output: 1.000000 4.000000 9.000000 16.000000 25.000000 36.000000 49.000000 64.000000 81.000000 100.000000 \n" := by
  decide

theorem main_cpuHost :
    main clBackend cpuHost =
      { ret := 1, stdout := "Unable to get device_id\n",
        results := List.replicate DATA_SIZE (ofInt 0),
        trace := [⟨Call.clGetPlatformIDs 1, ⟨CL_SUCCESS, 0, [1], some 1, none⟩⟩,
                  ⟨Call.clGetDeviceIDs (some 1) CL_DEVICE_TYPE_GPU 1,
                    Resp.err CL_DEVICE_NOT_FOUND⟩] } := by
  decide

theorem main_bareHost :
    main clBackend bareHost =
      { ret := 1, stdout := "Unable to get device_id\n",
        results := List.replicate DATA_SIZE (ofInt 0),
        trace := [⟨Call.clGetPlatformIDs 1, ⟨CL_SUCCESS, 0, [], some 0, none⟩⟩,
                  ⟨Call.clGetDeviceIDs none CL_DEVICE_TYPE_GPU 1,
                    Resp.err CL_INVALID_PLATFORM⟩] } := by
  decide

theorem main_cases {σ : Type} (B : Backend σ) (s : σ) :
    ∃ r : Nat → Resp, main B s = outcomeOf DATA_SIZE inputData r :=
  ⟨_, main_shape B s⟩

theorem main_gpuHost_explicit (junk : Handle → Nat → F32) :
    main clBackend (gpuHost junk) =
      { ret := 0,
        stdout := "output: 1.000000 4.000000 9.000000 16.000000 25.000000 36.000000 49.000000 64.000000 81.000000 100.000000 \n",
        results := [ofInt 1, ofInt 4, ofInt 9, ofInt 16, ofInt 25, ofInt 36, ofInt 49, ofInt 64,
          ofInt 81, ofInt 100],
        trace := pipeline DATA_SIZE inputData
          (gpuAnswers (some [ofInt 1, ofInt 4, ofInt 9, ofInt 16, ofInt 25, ofInt 36, ofInt 49,
            ofInt 64, ofInt 81, ofInt 100]) CL_SUCCESS) } := by
  have hs : hostStore (List.replicate DATA_SIZE (ofInt 0))
      (some [ofInt 1, ofInt 4, ofInt 9, ofInt 16, ofInt 25, ofInt 36, ofInt 49, ofInt 64,
        ofInt 81, ofInt 100]) =
      [ofInt 1, ofInt 4, ofInt 9, ofInt 16, ofInt 25, ofInt 36, ofInt 49, ofInt 64, ofInt 81,
        ofInt 100] := by decide
  rw [main_gpuHost, inputData_squares]
  simp only [outcomeOf, gpuAnswers, Resp.created, Resp.ok, Resp.err, ne_eq, not_true_eq_false,
    if_false, hs, printed_squares]

/-! ## The claims -/

/-- C1 (as amended): on the reference runtime with a GPU, where every call
succeeds and the kernel and the transfers are executed faithfully, `main` leaves
`results = {1, 4, 9, ..., 100}`, returns 0, and writes `output: ` followed by the
ten values in `%f` format, each of them, the last one too, followed by one
space, and then a newline. -/
theorem squares_printed (junk : Handle → Nat → F32) :
    (main clBackend (gpuHost junk)).results =
        [ofInt 1, ofInt 4, ofInt 9, ofInt 16, ofInt 25, ofInt 36, ofInt 49, ofInt 64, ofInt 81,
          ofInt 100] ∧
      (main clBackend (gpuHost junk)).stdout =
        "output: 1.000000 4.000000 9.000000 16.000000 25.000000 36.000000 49.000000 64.000000 81.000000 100.000000 \n" ∧
      (main clBackend (gpuHost junk)).ret = 0 ∧
      (main clBackend (gpuHost junk)).trace.length = 21 ∧
      ∀ e ∈ (main clBackend (gpuHost junk)).trace, e.resp.status = CL_SUCCESS := by
  rw [main_gpuHost_explicit]
  refine ⟨rfl, rfl, rfl, rfl, ?_⟩
  intro e he
  simp only [pipeline, List.mem_cons, List.mem_singleton, List.not_mem_nil, or_false] at he
  rcases he with h | h | h | h | h | h | h | h | h | h | h | h | h | h | h | h | h | h | h | h | h <;>
    subst h <;> rfl

/-- C1 (as stated) fails: in the same run the text on standard output is not the
line ending in `100.000000`, with or without its newline, because a space
follows the last value. -/
theorem squares_line_has_trailing_space :
    ¬ ((main clBackend (gpuHost (fun _ _ => F32.nan))).results =
          [ofInt 1, ofInt 4, ofInt 9, ofInt 16, ofInt 25, ofInt 36, ofInt 49, ofInt 64,
            ofInt 81, ofInt 100] ∧
        ((main clBackend (gpuHost (fun _ _ => F32.nan))).stdout =
            "output: 1.000000 4.000000 9.000000 16.000000 25.000000 36.000000 49.000000 64.000000 81.000000 100.000000" ∨
          (main clBackend (gpuHost (fun _ _ => F32.nan))).stdout =
            "output: 1.000000 4.000000 9.000000 16.000000 25.000000 36.000000 49.000000 64.000000 81.000000 100.000000\n") ∧
        (main clBackend (gpuHost (fun _ _ => F32.nan))).ret = 0) := by
  rw [main_gpuHost_explicit]
  decide

/-- C2: for every element count `n ≥ 1` and every host input `x` of `n` floats,
the pipeline on the reference runtime dispatches `hello` over the global work
size `n` and reads back `y` with `y[i] = x[i] * x[i]` for every `i < n`; `y[i]`
is determined by `x[i]` alone; where `x[i]` is an integer `k` with
`k * k ≤ 2^24`, `y[i]` is the integer `k * k`; and the `n` work-items, one per
id below `n`, leave these squares in the output buffer in whatever order they
run. -/
theorem kernel_squares (junk : Handle → Nat → F32) (n : Nat) (x : List F32) (hn : 1 ≤ n)
    (hx : x.length = n) :
    (∃ e ∈ (mainWith n x clBackend (gpuHost junk)).trace,
        e.call = Call.clEnqueueNDRangeKernel 4 6 1 [n] ∧ e.resp.status = CL_SUCCESS) ∧
      (mainWith n x clBackend (gpuHost junk)).results.length = n ∧
      (∀ i (hi : i < x.length),
        (mainWith n x clBackend (gpuHost junk)).results[i]? = some (fmul x[i] x[i])) ∧
      (∀ (x2 : List F32) (i : Nat), x2.length = n → x2[i]? = x[i]? →
        (mainWith n x2 clBackend (gpuHost junk)).results[i]? =
          (mainWith n x clBackend (gpuHost junk)).results[i]?) ∧
      (∀ (i : Nat) (k : Int), x[i]? = some (ofInt k) → k * k ≤ 2 ^ 24 →
        (mainWith n x clBackend (gpuHost junk)).results[i]? = some (ofInt (k * k))) ∧
      (∀ (ids : List Nat) (d : List F32), ids.Perm (List.range n) → d.length = n →
        runItems (helloInfo.body [7, 8]) ids
            [⟨7, 3, CL_MEM_READ_ONLY, false, x⟩, ⟨8, 3, CL_MEM_WRITE_ONLY, false, d⟩] =
          some [⟨7, 3, CL_MEM_READ_ONLY, false, x⟩,
                ⟨8, 3, CL_MEM_WRITE_ONLY, false, x.map (fun v => fmul v v)⟩]) := by
  have key : ∀ z : List F32, z.length = n →
      (mainWith n z clBackend (gpuHost junk)).results = z.map (fun v => fmul v v) ∧
      (mainWith n z clBackend (gpuHost junk)).trace =
        pipeline n z (gpuAnswers (some (z.map (fun v => fmul v v))) CL_SUCCESS) := by
    intro z hz
    subst hz
    rw [mainWith_gpuHost junk z hn]
    simp [outcomeOf, gpuAnswers, Resp.created, Resp.ok, Resp.err, hostStore_full]
  obtain ⟨hres, htr⟩ := key x hx
  refine ⟨?_, ?_, ?_, ?_, ?_, ?_⟩
  · rw [htr]
    refine ⟨⟨Call.clEnqueueNDRangeKernel 4 6 1 [n], Resp.ok⟩, ?_, rfl, rfl⟩
    simp [pipeline, gpuAnswers, Resp.created, Resp.ok, Resp.err]
  · rw [hres, List.length_map, hx]
  · intro i hi
    rw [hres, List.getElem?_map, List.getElem?_eq_getElem hi]
    rfl
  · intro x2 i hx2 hi
    rw [hres, (key x2 hx2).1, List.getElem?_map, List.getElem?_map, hi]
  · intro i k hi hk
    rw [hres, List.getElem?_map, hi]
    simp [fmul_self_ofInt k hk]
  · intro ids d hids hd
    subst hx
    exact runItems_hello_schedule 7 8 3 3 false false x d ids (by decide) hd hids

/-- C2 at a concrete input: three elements, among them `-4096`, whose square is `2^24`. -/
theorem kernel_squares_witness :
    (1 ≤ 3 ∧ [ofInt 3, ofInt (-4096), F32.inf true].length = 3) ∧
      (mainWith 3 [ofInt 3, ofInt (-4096), F32.inf true] clBackend
        (gpuHost (fun _ _ => F32.nan))).results.length = 3 :=
  ⟨⟨by decide, rfl⟩,
    (kernel_squares (fun _ _ => F32.nan) 3 [ofInt 3, ofInt (-4096), F32.inf true]
      (by decide) rfl).2.1⟩

/-- C3 (the code at a failing input): on the reference runtime with a GPU, when
the readback `clEnqueueReadBuffer` fails with `CL_OUT_OF_HOST_MEMORY` after
every earlier call has succeeded, `main` prints no diagnostic: it prints the
untouched zeros of `results` as the output line, goes on to the releases, and
returns 0. -/
theorem readback_error_swallowed (junk : Handle → Nat → F32) :
    (∃ e ∈ (main (failing isReadBuffer clBackend) (gpuHost junk)).trace,
        e.call.stage = Stage.readback CL_TRUE ∧ e.resp.status = CL_OUT_OF_HOST_MEMORY) ∧
      (main (failing isReadBuffer clBackend) (gpuHost junk)).ret = 0 ∧
      (main (failing isReadBuffer clBackend) (gpuHost junk)).stdout =
        "output: 0.000000 0.000000 0.000000 0.000000 0.000000 0.000000 0.000000 0.000000 0.000000 0.000000 \n" ∧
      (main (failing isReadBuffer clBackend) (gpuHost junk)).trace.length = 21 := by
  have h : main (failing isReadBuffer clBackend) (gpuHost junk) =
      outcomeOf DATA_SIZE inputData (gpuAnswers none CL_OUT_OF_HOST_MEMORY) :=
    mainWith_readFailure junk inputData (by decide)
  have hp : printLoop DATA_SIZE (hostStore (List.replicate DATA_SIZE (ofInt 0)) none)
      "output: " ++ "\n" =
      "output: 0.000000 0.000000 0.000000 0.000000 0.000000 0.000000 0.000000 0.000000 0.000000 0.000000 \n" := by
    decide
  have ho : outcomeOf DATA_SIZE inputData (gpuAnswers none CL_OUT_OF_HOST_MEMORY) =
      { ret := 0,
        stdout := "output: 0.000000 0.000000 0.000000 0.000000 0.000000 0.000000 0.000000 0.000000 0.000000 0.000000 \n",
        results := hostStore (List.replicate DATA_SIZE (ofInt 0)) none,
        trace := pipeline DATA_SIZE inputData (gpuAnswers none CL_OUT_OF_HOST_MEMORY) } := by
    simp only [outcomeOf, gpuAnswers, Resp.created, Resp.ok, Resp.err, ne_eq,
      not_true_eq_false, if_false, hp]
  rw [h, ho]
  refine ⟨⟨⟨Call.clEnqueueReadBuffer 4 8 CL_TRUE 0 (sizeof_float * DATA_SIZE),
    ⟨CL_OUT_OF_HOST_MEMORY, 0, [], none, none⟩⟩, ?_, rfl, rfl⟩, rfl, rfl, rfl⟩
  simp [pipeline, gpuAnswers, Resp.created, Resp.ok, Resp.err]

/-- C4: whenever the GPU device query does not return success (it is made only
after a successful platform lookup), `main` prints `Unable to get device_id`,
returns 1, and the two queries are its only backend calls: no context, no
buffer, no dispatch, and nothing else on standard output. -/
theorem device_lookup_failure {σ : Type} (B : Backend σ) (s : σ)
    (hdev : ∃ e ∈ (main B s).trace,
      (∃ p n, e.call = Call.clGetDeviceIDs p CL_DEVICE_TYPE_GPU n) ∧
        e.resp.status ≠ CL_SUCCESS) :
    (main B s).stdout = "Unable to get device_id\n" ∧
      (main B s).ret = 1 ∧
      (∃ r1 r2 : Resp, r1.status = CL_SUCCESS ∧ (main B s).trace =
        [⟨Call.clGetPlatformIDs 1, r1⟩,
         ⟨Call.clGetDeviceIDs r1.ids.head? CL_DEVICE_TYPE_GPU 1, r2⟩]) ∧
      ∀ e ∈ (main B s).trace,
        e.call.stage = Stage.platformLookup ∨ e.call.stage = Stage.deviceLookup := by
  obtain ⟨r, hr⟩ := main_cases B s
  rw [hr] at hdev ⊢
  unfold outcomeOf at hdev ⊢
  split_ifs at hdev ⊢ with h1 h2 h6
  · simp [pipeline] at hdev
  · simp only [ne_eq, not_not] at h1
    refine ⟨rfl, rfl, ⟨r 0, r 1, h1, by simp [pipeline]⟩, ?_⟩
    simp [pipeline, Call.stage]
  · simp only [ne_eq, not_not] at h2
    simp [pipeline, h2] at hdev
  · simp only [ne_eq, not_not] at h2
    simp [pipeline, h2] at hdev

/-- C4 at a concrete input: a host whose only device is a CPU. -/
theorem device_lookup_failure_witness :
    (main clBackend cpuHost).stdout = "Unable to get device_id\n" ∧
      (main clBackend cpuHost).ret = 1 ∧
      (∃ r1 r2 : Resp, r1.status = CL_SUCCESS ∧ (main clBackend cpuHost).trace =
        [⟨Call.clGetPlatformIDs 1, r1⟩,
         ⟨Call.clGetDeviceIDs r1.ids.head? CL_DEVICE_TYPE_GPU 1, r2⟩]) ∧
      ∀ e ∈ (main clBackend cpuHost).trace,
        e.call.stage = Stage.platformLookup ∨ e.call.stage = Stage.deviceLookup :=
  device_lookup_failure clBackend cpuHost
    (by
      rw [main_cpuHost]
      exact ⟨_, List.mem_cons_of_mem _ (List.mem_cons_self _ _), ⟨_, _, rfl⟩, by decide⟩)

/-- C5: whenever `clBuildProgram` does not return success (it is called only
after platform and device lookup have succeeded), `main` prints `Error building program`, returns 1, and stops
after the build: its calls are the two lookups, the three creations and the
build, so no kernel is created, no buffer allocated, no argument bound, nothing
dispatched or read back, and no `output:` line is printed. -/
theorem build_failure {σ : Type} (B : Backend σ) (s : σ)
    (hbuild : ∃ e ∈ (main B s).trace,
      e.call.stage = Stage.build ∧ e.resp.status ≠ CL_SUCCESS) :
    (main B s).stdout = "Error building program\n" ∧
      (main B s).ret = 1 ∧
      (∀ e ∈ (main B s).trace,
        e.call.stage = Stage.platformLookup ∨ e.call.stage = Stage.deviceLookup →
          e.resp.status = CL_SUCCESS) ∧
      (main B s).trace.map (fun e => e.call.stage) =
        [Stage.platformLookup, Stage.deviceLookup, Stage.contextCreation, Stage.queueCreation,
         Stage.programCreation, Stage.build] ∧
      ∀ e ∈ (main B s).trace,
        e.call.stage ≠ Stage.kernelExtraction ∧ (∀ f, e.call.stage ≠ Stage.bufferAllocation f) ∧
        (∀ b, e.call.stage ≠ Stage.inputWrite b) ∧ (∀ i, e.call.stage ≠ Stage.argumentBinding i) ∧
        e.call.stage ≠ Stage.dispatch ∧ e.call.stage ≠ Stage.finish ∧
        (∀ b, e.call.stage ≠ Stage.readback b) ∧ e.call.stage ≠ Stage.release := by
  obtain ⟨r, hr⟩ := main_cases B s
  rw [hr] at hbuild ⊢
  unfold outcomeOf at hbuild ⊢
  split_ifs at hbuild ⊢ with h1 h2 h6
  · simp [pipeline, Call.stage] at hbuild
  · simp [pipeline, Call.stage] at hbuild
  · simp only [ne_eq, not_not] at h1 h2
    refine ⟨rfl, rfl, by simp [pipeline, Call.stage, h1, h2], by simp [pipeline, Call.stage], ?_⟩
    simp [pipeline, Call.stage]
  · simp only [ne_eq, not_not] at h6
    simp [pipeline, Call.stage, h6] at hbuild

/-- C5 at a concrete input: the reference runtime with a GPU, the build failing. -/
theorem build_failure_witness :
    (main (failing isBuildProgram clBackend) (gpuHost (fun _ _ => F32.nan))).stdout =
        "Error building program\n" ∧
      (main (failing isBuildProgram clBackend) (gpuHost (fun _ _ => F32.nan))).ret = 1 :=
  have h := mainWith_buildFailure (fun _ _ => F32.nan) DATA_SIZE inputData
  have hb := build_failure (failing isBuildProgram clBackend) (gpuHost (fun _ _ => F32.nan))
    (by
      show ∃ e ∈ (mainWith DATA_SIZE inputData _ _).trace, _
      rw [h]
      refine ⟨⟨Call.clBuildProgram 5 0, Resp.err CL_OUT_OF_HOST_MEMORY⟩, ?_, rfl, by decide⟩
      simp)
  ⟨hb.1, hb.2.1⟩

/-- C6 (the code at a failing input): on a host without any platform whose
library answers the platform query with success and a count of zero, `main`
does not stop at the platform lookup.  It goes on to query devices with the
`platform_id` it never received, and it is that query that fails: the
diagnostic is `Unable to get device_id`. -/
theorem unset_platform_used :
    (main clBackend bareHost).trace =
        [⟨Call.clGetPlatformIDs 1, ⟨CL_SUCCESS, 0, [], some 0, none⟩⟩,
         ⟨Call.clGetDeviceIDs none CL_DEVICE_TYPE_GPU 1, Resp.err CL_INVALID_PLATFORM⟩] ∧
      (main clBackend bareHost).stdout = "Unable to get device_id\n" ∧
      (main clBackend bareHost).ret = 1 := by
  rw [main_bareHost]
  exact ⟨rfl, rfl, rfl⟩

/-- C7: in every run that reaches buffer allocation, both buffers, the write and
the read have the byte size `sizeof(float) * DATA_SIZE`, both transfers have
offset 0, and the dispatch is one-dimensional with global size `DATA_SIZE`;
each of these calls occurs exactly once; `DATA_SIZE` is 10 and is the length of
`inputData` and of `results`, so every work-item id is below `DATA_SIZE` and
addresses a whole `float` inside both buffers and both host arrays. -/
theorem size_consistency {σ : Type} (B : Backend σ) (s : σ)
    (h : ∃ e ∈ (main B s).trace, ∃ f, e.call.stage = Stage.bufferAllocation f) :
    (∀ e ∈ (main B s).trace, ∀ ctx f sz b,
        e.call = Call.clCreateBuffer ctx f sz b → sz = sizeof_float * DATA_SIZE) ∧
      (∀ e ∈ (main B s).trace, ∀ q bf bl off sz p,
        e.call = Call.clEnqueueWriteBuffer q bf bl off sz p →
          off = 0 ∧ sz = sizeof_float * DATA_SIZE ∧ p = inputData) ∧
      (∀ e ∈ (main B s).trace, ∀ q k d g,
        e.call = Call.clEnqueueNDRangeKernel q k d g → d = 1 ∧ g = [DATA_SIZE]) ∧
      (∀ e ∈ (main B s).trace, ∀ q bf bl off sz,
        e.call = Call.clEnqueueReadBuffer q bf bl off sz →
          off = 0 ∧ sz = sizeof_float * DATA_SIZE) ∧
      ((main B s).trace.map (fun e => e.call.stage)).count
          (Stage.bufferAllocation CL_MEM_READ_ONLY) = 1 ∧
      ((main B s).trace.map (fun e => e.call.stage)).count
          (Stage.bufferAllocation CL_MEM_WRITE_ONLY) = 1 ∧
      ((main B s).trace.map (fun e => e.call.stage)).count (Stage.inputWrite CL_TRUE) = 1 ∧
      ((main B s).trace.map (fun e => e.call.stage)).count Stage.dispatch = 1 ∧
      ((main B s).trace.map (fun e => e.call.stage)).count (Stage.readback CL_TRUE) = 1 ∧
      DATA_SIZE = 10 ∧ inputData.length = DATA_SIZE ∧ (main B s).results.length = DATA_SIZE ∧
      ∀ id, id < DATA_SIZE →
        sizeof_float * id + sizeof_float ≤ sizeof_float * DATA_SIZE ∧
          id < inputData.length ∧ id < (main B s).results.length := by
  obtain ⟨r, hr⟩ := main_cases B s
  have hlen : (hostStore (List.replicate DATA_SIZE (ofInt 0)) (r 14).host).length = DATA_SIZE := by
    cases hh : (r 14).host with
    | none => simp [hostStore]
    | some d =>
      simp only [hostStore, List.length_take, List.length_append, List.length_drop,
        List.length_replicate]
      omega
  rw [hr] at h ⊢
  unfold outcomeOf at h ⊢
  split_ifs at h ⊢ with h1 h2 h6
  · simp [pipeline, Call.stage] at h
  · simp [pipeline, Call.stage] at h
  · simp [pipeline, Call.stage] at h
  · refine ⟨?_, ?_, ?_, ?_, ?_, ?_, ?_, ?_, ?_, rfl, rfl, hlen, ?_⟩
    · simp [pipeline]
    · simp only [pipeline]
      simp only [List.mem_cons, List.mem_singleton, List.not_mem_nil, or_false]
      rintro e he q bf bl off sz p hc
      rcases he with h | h | h | h | h | h | h | h | h | h | h | h | h | h | h | h | h | h |
        h | h | h <;> subst h <;> simp at hc
      obtain ⟨_, _, _, h4, h5, h6⟩ := hc
      exact ⟨h4.symm, h5.symm, h6.symm⟩
    · simp only [pipeline]
      simp only [List.mem_cons, List.mem_singleton, List.not_mem_nil, or_false]
      rintro e he q k d g hc
      rcases he with h | h | h | h | h | h | h | h | h | h | h | h | h | h | h | h | h | h |
        h | h | h <;> subst h <;> simp at hc
      obtain ⟨_, _, h3, h4⟩ := hc
      exact ⟨h3.symm, h4.symm⟩
    · simp only [pipeline]
      simp only [List.mem_cons, List.mem_singleton, List.not_mem_nil, or_false]
      rintro e he q bf bl off sz hc
      rcases he with h | h | h | h | h | h | h | h | h | h | h | h | h | h | h | h | h | h |
        h | h | h <;> subst h <;> simp at hc
      obtain ⟨_, _, _, h4, h5⟩ := hc
      exact ⟨h4.symm, h5.symm⟩
    · simp [pipeline, Call.stage, CL_MEM_READ_ONLY, CL_MEM_WRITE_ONLY, List.count_cons]
    · simp [pipeline, Call.stage, CL_MEM_READ_ONLY, CL_MEM_WRITE_ONLY, List.count_cons]
    · simp [pipeline, Call.stage, List.count_cons]
    · simp [pipeline, Call.stage, List.count_cons]
    · simp [pipeline, Call.stage, List.count_cons]
    · intro id hid
      rw [hlen]
      have h10 : inputData.length = DATA_SIZE := rfl
      simp only [sizeof_float, DATA_SIZE] at hid h10 ⊢
      omega

/-- C7 at a concrete input: the run on the reference runtime with a GPU. -/
theorem size_consistency_witness :
    (∃ e ∈ (main clBackend (gpuHost (fun _ _ => F32.nan))).trace,
        ∃ f, e.call.stage = Stage.bufferAllocation f) ∧
      ((main clBackend (gpuHost (fun _ _ => F32.nan))).trace.map
        (fun e => e.call.stage)).count Stage.dispatch = 1 :=
  have h : ∃ e ∈ (main clBackend (gpuHost (fun _ _ => F32.nan))).trace,
      ∃ f, e.call.stage = Stage.bufferAllocation f := by
    rw [main_gpuHost_explicit]
    refine ⟨⟨Call.clCreateBuffer 3 CL_MEM_READ_ONLY (sizeof_float * DATA_SIZE) false,
      Resp.created 7⟩, ?_, CL_MEM_READ_ONLY, rfl⟩
    simp [pipeline, gpuAnswers, Resp.created, Resp.ok, Resp.err]
  ⟨h, (size_consistency clBackend (gpuHost (fun _ _ => F32.nan)) h).2.2.2.2.2.2.2.1⟩

/-- C8 (as amended): on the completed path `main` makes six release calls, after
the readback and whatever the release calls return: one for each object it
created, each object once, in the order input buffer, output buffer, program,
kernel, command queue, context.  The creation order is context, queue, program,
kernel, input buffer, output buffer. -/
theorem release_order {σ : Type} (B : Backend σ) (s : σ) (h : (main B s).ret = 0) :
    ∃ c q p k i o : Handle,
      (main B s).trace.filterMap Event.created =
          [(Kind.context, c), (Kind.queue, q), (Kind.program, p), (Kind.kernel, k),
           (Kind.buffer, i), (Kind.buffer, o)] ∧
        (main B s).trace.filterMap Event.released =
          [(Kind.buffer, i), (Kind.buffer, o), (Kind.program, p), (Kind.kernel, k),
           (Kind.queue, q), (Kind.context, c)] ∧
        ((main B s).trace.take 15).filterMap Event.released = [] ∧
        ((main B s).trace.take 15).map (fun e => e.call.stage) = pipelineOrder.take 15 ∧
        ((main B s).trace.drop 15).map (fun e => e.call.stage) = List.replicate 6 Stage.release := by
  obtain ⟨r, hr⟩ := main_cases B s
  rw [hr] at h ⊢
  unfold outcomeOf at h ⊢
  split_ifs at h ⊢ with h1 h2 h6
  · simp at h
  · simp at h
  · simp at h
  · refine ⟨(r 2).handle, (r 3).handle, (r 4).handle, (r 6).handle, (r 7).handle,
      (r 8).handle, ?_, ?_, ?_, ?_, ?_⟩
    · simp [pipeline, Event.created]
    · simp [pipeline, Event.released]
    · simp [pipeline, Event.released]
    · simp [pipeline, Call.stage, pipelineOrder]
    · simp [pipeline, Call.stage, List.replicate]

/-- C8 at a concrete input: the run on the reference runtime with a GPU. -/
theorem release_order_witness :
    (main clBackend (gpuHost (fun _ _ => F32.nan))).ret = 0 ∧
      ∃ c q p k i o : Handle,
        (main clBackend (gpuHost (fun _ _ => F32.nan))).trace.filterMap Event.created =
            [(Kind.context, c), (Kind.queue, q), (Kind.program, p), (Kind.kernel, k),
             (Kind.buffer, i), (Kind.buffer, o)] ∧
          (main clBackend (gpuHost (fun _ _ => F32.nan))).trace.filterMap Event.released =
            [(Kind.buffer, i), (Kind.buffer, o), (Kind.program, p), (Kind.kernel, k),
             (Kind.queue, q), (Kind.context, c)] :=
  have h : (main clBackend (gpuHost (fun _ _ => F32.nan))).ret = 0 := by
    rw [main_gpuHost_explicit]
  have hr := release_order clBackend (gpuHost (fun _ _ => F32.nan)) h
  ⟨h, hr.imp fun _ hc => hc.imp fun _ hq => hq.imp fun _ hp => hp.imp fun _ hk =>
    hk.imp fun _ hi => hi.imp fun _ ho => ⟨ho.1, ho.2.1⟩⟩

/-- C8 (as stated) fails: in the completed run on the reference runtime the
release calls are not the creations in reverse.  Created: context 3, queue 4,
program 5, kernel 6, buffers 7 and 8; released: buffers 7 and 8, program 5,
kernel 6, queue 4, context 3. -/
theorem release_order_not_reversed :
    (main clBackend (gpuHost (fun _ _ => F32.nan))).ret = 0 ∧
      (main clBackend (gpuHost (fun _ _ => F32.nan))).trace.filterMap Event.created =
        [(Kind.context, 3), (Kind.queue, 4), (Kind.program, 5), (Kind.kernel, 6),
         (Kind.buffer, 7), (Kind.buffer, 8)] ∧
      (main clBackend (gpuHost (fun _ _ => F32.nan))).trace.filterMap Event.released =
        [(Kind.buffer, 7), (Kind.buffer, 8), (Kind.program, 5), (Kind.kernel, 6),
         (Kind.queue, 4), (Kind.context, 3)] ∧
      (main clBackend (gpuHost (fun _ _ => F32.nan))).trace.filterMap Event.released ≠
        ((main clBackend (gpuHost (fun _ _ => F32.nan))).trace.filterMap Event.created).reverse := by
  rw [main_gpuHost_explicit]
  decide

/-- C9: in every run the stages of the backend calls, in order, are a prefix of
the fixed pipeline order.  Whenever the kernel is dispatched, the run contains,
consecutively: the allocation of the input and of the output buffer, the
blocking write of `inputData` into the input buffer, the binding of the input
buffer handle to slot 0 and of the output buffer handle to slot 1, the
dispatch, `clFinish`, and the blocking readback of the output buffer; before
them come only the seven earlier stages and after them only releases. -/
theorem pipeline_order {σ : Type} (B : Backend σ) (s : σ) :
    (main B s).trace.map (fun e => e.call.stage) <+: pipelineOrder ∧
      ((∃ e ∈ (main B s).trace, e.call.stage = Stage.dispatch) →
        ∃ (pre post : List Event) (ctx q k : Handle) (ri ro rw r0 r1 rd rf rr : Resp),
          (main B s).trace = pre ++
            [⟨Call.clCreateBuffer ctx CL_MEM_READ_ONLY (sizeof_float * DATA_SIZE) false, ri⟩,
             ⟨Call.clCreateBuffer ctx CL_MEM_WRITE_ONLY (sizeof_float * DATA_SIZE) false, ro⟩,
             ⟨Call.clEnqueueWriteBuffer q ri.handle CL_TRUE 0 (sizeof_float * DATA_SIZE)
               inputData, rw⟩,
             ⟨Call.clSetKernelArg k 0 sizeof_cl_mem ri.handle, r0⟩,
             ⟨Call.clSetKernelArg k 1 sizeof_cl_mem ro.handle, r1⟩,
             ⟨Call.clEnqueueNDRangeKernel q k 1 [DATA_SIZE], rd⟩,
             ⟨Call.clFinish q, rf⟩,
             ⟨Call.clEnqueueReadBuffer q ro.handle CL_TRUE 0 (sizeof_float * DATA_SIZE), rr⟩] ++
            post ∧
          pre.map (fun e => e.call.stage) = pipelineOrder.take 7 ∧
          ∀ e ∈ post, e.call.stage = Stage.release) := by
  obtain ⟨r, hr⟩ := main_cases B s
  rw [hr]
  unfold outcomeOf
  split_ifs with h1 h2 h6
  · refine ⟨⟨pipelineOrder.drop 1, by simp [pipeline, Call.stage, pipelineOrder]⟩, ?_⟩
    intro hd
    simp [pipeline, Call.stage] at hd
  · refine ⟨⟨pipelineOrder.drop 2, by simp [pipeline, Call.stage, pipelineOrder]⟩, ?_⟩
    intro hd
    simp [pipeline, Call.stage] at hd
  · refine ⟨⟨pipelineOrder.drop 6, by simp [pipeline, Call.stage, pipelineOrder]⟩, ?_⟩
    intro hd
    simp [pipeline, Call.stage] at hd
  · refine ⟨⟨[], by simp [pipeline, Call.stage, pipelineOrder]⟩, ?_⟩
    intro _
    refine ⟨(pipeline DATA_SIZE inputData r).take 7, (pipeline DATA_SIZE inputData r).drop 15,
      (r 2).handle, (r 3).handle, (r 6).handle, r 7, r 8, r 9, r 10, r 11, r 12, r 13, r 14,
      ?_, ?_, ?_⟩
    · simp [pipeline]
    · simp [pipeline, Call.stage, pipelineOrder]
    · simp [pipeline, Call.stage]

/-- C9 at a concrete input: the run on the reference runtime with a GPU, in which
the kernel is dispatched. -/
theorem pipeline_order_witness :
    (∃ e ∈ (main clBackend (gpuHost (fun _ _ => F32.nan))).trace,
        e.call.stage = Stage.dispatch) ∧
      ∃ (pre post : List Event) (ctx q k : Handle) (ri ro rw r0 r1 rd rf rr : Resp),
        (main clBackend (gpuHost (fun _ _ => F32.nan))).trace = pre ++
          [⟨Call.clCreateBuffer ctx CL_MEM_READ_ONLY (sizeof_float * DATA_SIZE) false, ri⟩,
           ⟨Call.clCreateBuffer ctx CL_MEM_WRITE_ONLY (sizeof_float * DATA_SIZE) false, ro⟩,
           ⟨Call.clEnqueueWriteBuffer q ri.handle CL_TRUE 0 (sizeof_float * DATA_SIZE)
             inputData, rw⟩,
           ⟨Call.clSetKernelArg k 0 sizeof_cl_mem ri.handle, r0⟩,
           ⟨Call.clSetKernelArg k 1 sizeof_cl_mem ro.handle, r1⟩,
           ⟨Call.clEnqueueNDRangeKernel q k 1 [DATA_SIZE], rd⟩,
           ⟨Call.clFinish q, rf⟩,
           ⟨Call.clEnqueueReadBuffer q ro.handle CL_TRUE 0 (sizeof_float * DATA_SIZE), rr⟩] ++
          post ∧
        pre.map (fun e => e.call.stage) = pipelineOrder.take 7 ∧
        ∀ e ∈ post, e.call.stage = Stage.release :=
  have h : ∃ e ∈ (main clBackend (gpuHost (fun _ _ => F32.nan))).trace,
      e.call.stage = Stage.dispatch := by
    rw [main_gpuHost_explicit]
    refine ⟨⟨Call.clEnqueueNDRangeKernel 4 6 1 [DATA_SIZE], Resp.ok⟩, ?_, rfl⟩
    simp [pipeline, gpuAnswers, Resp.created, Resp.ok, Resp.err]
  ⟨h, (pipeline_order clBackend (gpuHost (fun _ _ => F32.nan))).2 h⟩

/-- C10: `main` returns 0 or 1, and 1 exactly when the platform lookup, the device
lookup or the build reports an error.  A run that returns 1 makes no release
call; a run that returns 0 makes six.  In particular, when the build fails, the
context, the command queue and the program have been created and none of them
is released. -/
theorem early_exit_no_release {σ : Type} (B : Backend σ) (s : σ) :
    ((main B s).ret = 0 ∨ (main B s).ret = 1) ∧
      ((main B s).ret = 1 ↔ ∃ e ∈ (main B s).trace,
        (e.call.stage = Stage.platformLookup ∨ e.call.stage = Stage.deviceLookup ∨
          e.call.stage = Stage.build) ∧ e.resp.status ≠ CL_SUCCESS) ∧
      ((main B s).ret = 1 → ∀ e ∈ (main B s).trace, e.call.stage ≠ Stage.release) ∧
      ((main B s).ret = 0 →
        ((main B s).trace.map (fun e => e.call.stage)).count Stage.release = 6) ∧
      ((∃ e ∈ (main B s).trace, e.call.stage = Stage.build ∧ e.resp.status ≠ CL_SUCCESS) →
        (∃ c q p : Handle, (main B s).trace.filterMap Event.created =
          [(Kind.context, c), (Kind.queue, q), (Kind.program, p)]) ∧
        (main B s).trace.filterMap Event.released = []) := by
  obtain ⟨r, hr⟩ := main_cases B s
  rw [hr]
  unfold outcomeOf
  split_ifs with h1 h2 h6
  · refine ⟨Or.inr rfl, ?_, ?_, ?_, ?_⟩
    · simp [pipeline, Call.stage, h1]
    · simp [pipeline, Call.stage]
    · simp
    · simp [pipeline, Call.stage]
  · simp only [ne_eq, not_not] at h1
    refine ⟨Or.inr rfl, ?_, ?_, ?_, ?_⟩
    · simp [pipeline, Call.stage, h1, h2]
    · simp [pipeline, Call.stage]
    · simp
    · simp [pipeline, Call.stage]
  · simp only [ne_eq, not_not] at h1 h2
    refine ⟨Or.inr rfl, ?_, ?_, ?_, ?_⟩
    · simp [pipeline, Call.stage, h1, h2, h6]
    · simp [pipeline, Call.stage]
    · simp
    · intro _
      exact ⟨⟨(r 2).handle, (r 3).handle, (r 4).handle, by simp [pipeline, Event.created]⟩,
        by simp [pipeline, Event.released]⟩
  · simp only [ne_eq, not_not] at h1 h2 h6
    refine ⟨Or.inl rfl, ?_, ?_, ?_, ?_⟩
    · simp [pipeline, Call.stage, h1, h2, h6]
    · simp
    · simp [pipeline, Call.stage, List.count_cons]
    · simp [pipeline, Call.stage, h6]

/-- C10 at a concrete input: the reference runtime with a GPU, the build failing. -/
theorem early_exit_no_release_witness :
    (main (failing isBuildProgram clBackend) (gpuHost (fun _ _ => F32.nan))).ret = 1 ∧
      ∀ e ∈ (main (failing isBuildProgram clBackend) (gpuHost (fun _ _ => F32.nan))).trace,
        e.call.stage ≠ Stage.release :=
  have h : (main (failing isBuildProgram clBackend) (gpuHost (fun _ _ => F32.nan))).ret = 1 := by
    show (mainWith DATA_SIZE inputData _ _).ret = 1
    rw [mainWith_buildFailure]
  ⟨h, (early_exit_no_release (failing isBuildProgram clBackend)
    (gpuHost (fun _ _ => F32.nan))).2.2.1 h⟩

end OpenCLTest
